import Mathlib

/-
Formal model of the AI fraud-detection system (TypeScript sources under src/).

Conventions used throughout this development:

* JavaScript numbers are IEEE doubles.  We model them by the type `JSNum`
  below: an exact rational (`JSNum.fin`) or one of the non-finite values
  `nan`, `inf`, `ninf`.  Rounding of doubles is not modelled (all source
  arithmetic is treated exactly); signed zero is not modelled (the sources
  never distinguish `0` from `-0`).  JS comparisons involving `NaN` are
  `false`, and `Math.min`/`Math.max` return `NaN` when an argument is `NaN`;
  `JSNum.lt`, `JSNum.jsMin`, `JSNum.jsMax` reproduce this.
* JS `Map` objects are modelled as association lists (`mapSet` replaces in
  place, preserving insertion order exactly as `Map.set` does; `mapDelete`
  removes; `mapGet?` looks up).
* Wall-clock reads (`Date.now()`, `new Date().getHours()`) are threaded as
  explicit parameters (`now : ℤ` in milliseconds, `clockHour : ℕ`).
  A transaction carries both its epoch timestamp and the value its
  `timestamp.getHours()` returns (`txHour`), since the latter depends on the
  timezone of the environment, which is external data.
* Calls to `Math.random()` are threaded as explicit rational parameters,
  each accompanied in the theorems by the bound the source guarantees.
* Template strings that interpolate numbers are modelled as inductive types
  carrying the interpolated values (`AnomalyDesc`, `Explanation`); constant
  strings stay strings.  This loses only the decimal formatting, not the
  content.
-/

/-- A JavaScript number: a finite (exact) rational, NaN, or a signed
infinity. -/
inductive JSNum where
  | fin (q : ℚ)
  | nan
  | inf
  | ninf
deriving DecidableEq

namespace JSNum

/-- Unary minus on JS numbers. -/
def neg : JSNum → JSNum
  | fin q => fin (-q)
  | nan => nan
  | inf => ninf
  | ninf => inf

/-- JS addition. -/
def add : JSNum → JSNum → JSNum
  | fin a, fin b => fin (a + b)
  | nan, _ => nan
  | _, nan => nan
  | inf, ninf => nan
  | ninf, inf => nan
  | inf, _ => inf
  | _, inf => inf
  | ninf, _ => ninf
  | _, ninf => ninf

/-- JS subtraction. -/
def sub (a b : JSNum) : JSNum := add a (neg b)

/-- JS multiplication. -/
def mul : JSNum → JSNum → JSNum
  | fin a, fin b => fin (a * b)
  | nan, _ => nan
  | _, nan => nan
  | inf, fin b => if b = 0 then nan else if 0 < b then inf else ninf
  | fin a, inf => if a = 0 then nan else if 0 < a then inf else ninf
  | ninf, fin b => if b = 0 then nan else if 0 < b then ninf else inf
  | fin a, ninf => if a = 0 then nan else if 0 < a then ninf else inf
  | inf, inf => inf
  | inf, ninf => ninf
  | ninf, inf => ninf
  | ninf, ninf => inf

/-- JS division (division by zero yields an infinity or NaN, as for
doubles). -/
def div : JSNum → JSNum → JSNum
  | nan, _ => nan
  | _, nan => nan
  | fin a, fin b =>
      if b = 0 then (if a = 0 then nan else if 0 < a then inf else ninf)
      else fin (a / b)
  | fin _, inf => fin 0
  | fin _, ninf => fin 0
  | inf, fin b => if 0 ≤ b then inf else ninf
  | ninf, fin b => if 0 ≤ b then ninf else inf
  | inf, _ => nan
  | ninf, _ => nan

/-- JS Math.abs. -/
def abs : JSNum → JSNum
  | fin q => fin |q|
  | nan => nan
  | inf => inf
  | ninf => inf

/-- JS strict less-than: any comparison with NaN is false. -/
def lt : JSNum → JSNum → Bool
  | nan, _ => false
  | _, nan => false
  | fin a, fin b => decide (a < b)
  | ninf, ninf => false
  | ninf, _ => true
  | _, ninf => false
  | inf, inf => false
  | _, inf => true
  | inf, _ => false

/-- JS strict greater-than. -/
def gt (a b : JSNum) : Bool := lt b a

/-- JS Math.min: NaN if either argument is NaN. -/
def jsMin (a b : JSNum) : JSNum :=
  if a = nan ∨ b = nan then nan else if lt b a then b else a

/-- JS Math.max: NaN if either argument is NaN. -/
def jsMax (a b : JSNum) : JSNum :=
  if a = nan ∨ b = nan then nan else if lt a b then b else a

/-- Whether the value is a finite number (neither NaN nor an infinity). -/
def isFin : JSNum → Bool
  | fin _ => true
  | _ => false

/-- The arithmetic value of `undefined` (e.g. an out-of-range array index)
is NaN. -/
def ofOpt : Option ℚ → JSNum
  | some q => fin q
  | none => nan

/-- Read a JSNum-valued array cell, NaN when out of range. -/
def getElem? (l : List JSNum) (i : ℕ) : JSNum := (l.get? i).getD nan

end JSNum

/-- Sum of a list of JS numbers, as in `reduce((a, b) => a + b, 0)`. -/
def jsSum (l : List JSNum) : JSNum := l.foldl JSNum.add (JSNum.fin 0)

/-- Arithmetic mean exactly as the sources compute it:
`xs.reduce((a, b) => a + b, 0) / xs.length`.  On an empty list this is
`0 / 0 = NaN`. -/
def jsAvg (xs : List ℚ) : JSNum :=
  JSNum.div (JSNum.fin xs.sum) (JSNum.fin xs.length)

/-
Data model of src/lib/biometrics-processor.ts and src/lib/types.ts.
The three per-channel payloads of a `BiometricData` sample are optional:
a JSON request body may omit them, and the processor then fails with a
TypeError (property access on `undefined`), which we model with `Except`.
Sample payloads carry plain rationals; profile fields carry `JSNum`
because NaN can be written into a stored profile.
-/

/-- Keystroke channel of a biometric sample. -/
structure KeystrokeDynamics where
  dwellTimes : List ℚ
  flightTimes : List ℚ
  typingSpeed : ℚ
deriving DecidableEq

/-- Mouse channel of a biometric sample. -/
structure MouseMovements where
  velocity : List ℚ
  acceleration : List ℚ
  clickPatterns : List ℚ
deriving DecidableEq

/-- Device-sensor channel of a biometric sample. -/
structure DeviceSensors where
  accelerometer : List ℚ
  gyroscope : List ℚ
  orientation : ℚ
deriving DecidableEq

/-- A biometric sample (`BiometricData`).  The channel fields are `Option`
because a malformed request can omit them. `timestamp` is epoch
milliseconds. -/
structure BiometricData where
  sessionId : String
  userId : String
  keystrokeDynamics : Option KeystrokeDynamics
  mouseMovements : Option MouseMovements
  deviceSensors : Option DeviceSensors
  timestamp : ℤ
deriving DecidableEq

/-- Mouse movement pattern classes. -/
inductive MovementPattern where
  | smooth
  | jerky
  | mixed
deriving DecidableEq

/-- Handedness values of a device profile. -/
inductive Handedness where
  | left
  | right
  | ambidextrous
deriving DecidableEq

/-- Keystroke part of a stored biometric profile. -/
structure KeystrokeProfile where
  avgDwellTime : JSNum
  avgFlightTime : JSNum
  dwellTimeVariance : JSNum
  flightTimeVariance : JSNum
  typingRhythm : List ℚ
  preferredTypingSpeed : JSNum
  keyPressurePattern : List ℚ
deriving DecidableEq

/-- Mouse part of a stored biometric profile. -/
structure MouseProfile where
  avgVelocity : JSNum
  avgAcceleration : JSNum
  clickRhythm : List ℚ
  movementPattern : MovementPattern
  preferredClickSpeed : JSNum
  scrollBehavior : List ℚ
deriving DecidableEq

/-- Device part of a stored biometric profile. -/
structure DeviceProfile where
  orientationPreference : JSNum
  accelerometerBaseline : List JSNum
  gyroscopeBaseline : List JSNum
  deviceStability : JSNum
  handedness : Handedness
deriving DecidableEq

/-- A stored per-user biometric profile. -/
structure BiometricProfile where
  userId : String
  keystrokeProfile : KeystrokeProfile
  mouseProfile : MouseProfile
  deviceProfile : DeviceProfile
  sessionCount : ℕ
  lastUpdated : ℤ
  confidence : JSNum
deriving DecidableEq

/-- Anomaly channel tags. -/
inductive AnomalyType where
  | keystroke
  | mouse
  | device
  | session
deriving DecidableEq

/-- Anomaly severities. -/
inductive Severity where
  | low
  | medium
  | high
deriving DecidableEq

/-- The description template strings of `BiometricAnomaly`, with the
interpolated numeric values carried as data (decimal formatting elided). -/
inductive AnomalyDesc where
  | unusualDwellTime (observed expected : JSNum)
  | unusualFlightTime (observed expected : JSNum)
  | unusualTypingSpeed (observed : ℚ) (expected : JSNum)
  | unusualMouseVelocity (observed expected : JSNum)
  | unusualMouseAcceleration
  | movementPatternChange (old new : MovementPattern)
  | deviceMovementAccelerometer
  | deviceRotationGyroscope
  | orientationDiffers
deriving DecidableEq

/-- A detected biometric anomaly. -/
structure BiometricAnomaly where
  type : AnomalyType
  severity : Severity
  description : AnomalyDesc
  confidence : JSNum
  deviationScore : JSNum
deriving DecidableEq

/-- Mirrors `analyzeKeystrokeDynamics` (biometrics-processor.ts, lines
133-182): session averages of dwell and flight time, relative deviations
against the stored keystroke profile, anomalies above the 0.4 / 0.5
thresholds with severity upgraded above 0.7 / 0.8. -/
def analyzeKeystrokeDynamics (keystrokeDynamics : KeystrokeDynamics)
    (keystrokeProfile : KeystrokeProfile) : List BiometricAnomaly :=
  let avgDwellTime := jsAvg keystrokeDynamics.dwellTimes
  let avgFlightTime := jsAvg keystrokeDynamics.flightTimes
  let dwellTimeDeviation :=
    JSNum.div (JSNum.abs (JSNum.sub avgDwellTime keystrokeProfile.avgDwellTime))
      keystrokeProfile.avgDwellTime
  let flightTimeDeviation :=
    JSNum.div (JSNum.abs (JSNum.sub avgFlightTime keystrokeProfile.avgFlightTime))
      keystrokeProfile.avgFlightTime
  let typingSpeedDeviation :=
    JSNum.div
      (JSNum.abs (JSNum.sub (JSNum.fin keystrokeDynamics.typingSpeed)
        keystrokeProfile.preferredTypingSpeed))
      keystrokeProfile.preferredTypingSpeed
  (if JSNum.gt dwellTimeDeviation (JSNum.fin (4/10)) then
    [{ type := AnomalyType.keystroke
       severity := if JSNum.gt dwellTimeDeviation (JSNum.fin (7/10)) then Severity.high
         else Severity.medium
       description := AnomalyDesc.unusualDwellTime avgDwellTime keystrokeProfile.avgDwellTime
       confidence := JSNum.jsMin (JSNum.fin (95/100)) dwellTimeDeviation
       deviationScore := dwellTimeDeviation }]
   else []) ++
  (if JSNum.gt flightTimeDeviation (JSNum.fin (4/10)) then
    [{ type := AnomalyType.keystroke
       severity := if JSNum.gt flightTimeDeviation (JSNum.fin (7/10)) then Severity.high
         else Severity.medium
       description := AnomalyDesc.unusualFlightTime avgFlightTime keystrokeProfile.avgFlightTime
       confidence := JSNum.jsMin (JSNum.fin (95/100)) flightTimeDeviation
       deviationScore := flightTimeDeviation }]
   else []) ++
  (if JSNum.gt typingSpeedDeviation (JSNum.fin (5/10)) then
    [{ type := AnomalyType.keystroke
       severity := if JSNum.gt typingSpeedDeviation (JSNum.fin (8/10)) then Severity.high
         else Severity.medium
       description := AnomalyDesc.unusualTypingSpeed keystrokeDynamics.typingSpeed
         keystrokeProfile.preferredTypingSpeed
       confidence := JSNum.jsMin (JSNum.fin (95/100)) typingSpeedDeviation
       deviationScore := typingSpeedDeviation }]
   else [])

/-- Mirrors `calculateVariance` (biometrics-processor.ts, lines 303-307). -/
def calculateVariance (values : List ℚ) : JSNum :=
  let mean := jsAvg values
  let squaredDiffs := values.map (fun value => JSNum.mul (JSNum.sub (JSNum.fin value) mean)
    (JSNum.sub (JSNum.fin value) mean))
  JSNum.div (jsSum squaredDiffs) (JSNum.fin values.length)

/-- Mirrors `classifyMovementPattern` (biometrics-processor.ts, lines
283-290). -/
def classifyMovementPattern (velocity acceleration : List ℚ) : MovementPattern :=
  let velocityVariance := calculateVariance velocity
  let accelerationVariance := calculateVariance acceleration
  if JSNum.lt velocityVariance (JSNum.fin 50000) &&
      JSNum.lt accelerationVariance (JSNum.fin 25000) then MovementPattern.smooth
  else if JSNum.gt velocityVariance (JSNum.fin 150000) ||
      JSNum.gt accelerationVariance (JSNum.fin 75000) then MovementPattern.jerky
  else MovementPattern.mixed

/-- Mirrors `analyzeMouseMovements` (biometrics-processor.ts, lines
184-235).  `clickDeviation` is computed by the source but feeds no anomaly;
it is reproduced here (unused) for fidelity. -/
def analyzeMouseMovements (mouseMovements : MouseMovements)
    (mouseProfile : MouseProfile) : List BiometricAnomaly :=
  let avgVelocity := jsAvg mouseMovements.velocity
  let avgAcceleration := jsAvg mouseMovements.acceleration
  let avgClickPattern := jsAvg mouseMovements.clickPatterns
  let velocityDeviation :=
    JSNum.div (JSNum.abs (JSNum.sub avgVelocity mouseProfile.avgVelocity))
      mouseProfile.avgVelocity
  let accelerationDeviation :=
    JSNum.div (JSNum.abs (JSNum.sub avgAcceleration mouseProfile.avgAcceleration))
      mouseProfile.avgAcceleration
  let _clickDeviation :=
    JSNum.div (JSNum.abs (JSNum.sub avgClickPattern mouseProfile.preferredClickSpeed))
      mouseProfile.preferredClickSpeed
  let currentPattern := classifyMovementPattern mouseMovements.velocity
    mouseMovements.acceleration
  (if JSNum.gt velocityDeviation (JSNum.fin (5/10)) then
    [{ type := AnomalyType.mouse
       severity := if JSNum.gt velocityDeviation (JSNum.fin (8/10)) then Severity.high
         else Severity.medium
       description := AnomalyDesc.unusualMouseVelocity avgVelocity mouseProfile.avgVelocity
       confidence := JSNum.jsMin (JSNum.fin (95/100)) velocityDeviation
       deviationScore := velocityDeviation }]
   else []) ++
  (if JSNum.gt accelerationDeviation (JSNum.fin (5/10)) then
    [{ type := AnomalyType.mouse
       severity := if JSNum.gt accelerationDeviation (JSNum.fin (8/10)) then Severity.high
         else Severity.medium
       description := AnomalyDesc.unusualMouseAcceleration
       confidence := JSNum.jsMin (JSNum.fin (95/100)) accelerationDeviation
       deviationScore := accelerationDeviation }]
   else []) ++
  (if currentPattern ≠ mouseProfile.movementPattern then
    [{ type := AnomalyType.mouse
       severity := Severity.medium
       description := AnomalyDesc.movementPatternChange mouseProfile.movementPattern
         currentPattern
       confidence := JSNum.fin (7/10)
       deviationScore := JSNum.fin (6/10) }]
   else [])

/-- Mirrors `calculateVectorDeviation` (biometrics-processor.ts, lines
292-301) in a square-free-of-sqrt encoding: the source returns
`sqrt(sumSquaredDiff / n)` and every consumer only compares the result with
a nonnegative constant `c`; since `sqrt` is strictly monotone on `[0, ∞)`
(and maps NaN to NaN, `+∞` to `+∞`), `sqrt x > c ↔ x > c²`, so this
function returns the value BEFORE the square root and all comparisons in
`analyzeDeviceSensors` use the squared thresholds.  The early return `1` on
a length mismatch is unaffected because `1² = 1`. -/
def calculateVectorDeviationSq (current : List ℚ) (baseline : List JSNum) : JSNum :=
  if current.length ≠ baseline.length then JSNum.fin 1
  else
    let sumSquaredDiff := jsSum ((List.range current.length).map (fun idx =>
      let diff := JSNum.sub (JSNum.ofOpt (current.get? idx)) (JSNum.getElem? baseline idx)
      JSNum.mul diff diff))
    JSNum.div sumSquaredDiff (JSNum.fin current.length)

/-- Mirrors `analyzeDeviceSensors` (biometrics-processor.ts, lines 237-281);
the accelerometer and gyroscope comparisons use the squared thresholds
`0.5² = 1/4` and `0.8² = 16/25` as explained at
`calculateVectorDeviationSq`; the recorded `deviationScore` of those two
anomalies is therefore the square of the value the source records. -/
def analyzeDeviceSensors (deviceSensors : DeviceSensors)
    (deviceProfile : DeviceProfile) : List BiometricAnomaly :=
  let accelDeviationSq := calculateVectorDeviationSq deviceSensors.accelerometer
    deviceProfile.accelerometerBaseline
  let gyroDeviationSq := calculateVectorDeviationSq deviceSensors.gyroscope
    deviceProfile.gyroscopeBaseline
  let orientationDeviation :=
    JSNum.div (JSNum.abs (JSNum.sub (JSNum.fin deviceSensors.orientation)
      deviceProfile.orientationPreference)) (JSNum.fin 360)
  (if JSNum.gt accelDeviationSq (JSNum.fin (1/4)) then
    [{ type := AnomalyType.device
       severity := if JSNum.gt accelDeviationSq (JSNum.fin (16/25)) then Severity.high
         else Severity.medium
       description := AnomalyDesc.deviceMovementAccelerometer
       confidence := JSNum.jsMin (JSNum.fin (95/100)) accelDeviationSq
       deviationScore := accelDeviationSq }]
   else []) ++
  (if JSNum.gt gyroDeviationSq (JSNum.fin (1/4)) then
    [{ type := AnomalyType.device
       severity := if JSNum.gt gyroDeviationSq (JSNum.fin (16/25)) then Severity.high
         else Severity.medium
       description := AnomalyDesc.deviceRotationGyroscope
       confidence := JSNum.jsMin (JSNum.fin (95/100)) gyroDeviationSq
       deviationScore := gyroDeviationSq }]
   else []) ++
  (if JSNum.gt orientationDeviation (JSNum.fin (3/10)) then
    [{ type := AnomalyType.device
       severity := Severity.low
       description := AnomalyDesc.orientationDiffers
       confidence := JSNum.fin (6/10)
       deviationScore := orientationDeviation }]
   else [])

/-- The EMA learning rate `alpha = 0.1` of `updateUserProfile`. -/
def emaAlpha : ℚ := 1/10

/-- One EMA blend `(1 - alpha) * old + alpha * new` over JS numbers. -/
def emaBlend (old sample : JSNum) : JSNum :=
  JSNum.add (JSNum.mul (JSNum.fin (1 - emaAlpha)) old)
    (JSNum.mul (JSNum.fin emaAlpha) sample)

/-- The device-baseline update loop of `updateUserProfile`: indices 0, 1, 2
are assigned the EMA blend (reading out-of-range cells as `undefined`,
whose arithmetic is NaN, and extending the array to length 3 exactly as a
JS indexed assignment does); any cells beyond index 2 are untouched. -/
def emaVec3 (baseline : List JSNum) (sample : List ℚ) : List JSNum :=
  (List.range 3).map (fun i =>
    emaBlend (JSNum.getElem? baseline i) (JSNum.ofOpt (sample.get? i))) ++
  baseline.drop 3

/-- Mirrors `updateUserProfile` (biometrics-processor.ts, lines 309-344):
EMA with rate 0.1 on avgDwellTime, avgFlightTime, preferredTypingSpeed,
avgVelocity, avgAcceleration and the two device baselines; sessionCount
incremented; confidence raised by 0.01 and capped at 0.95.  All other
fields are untouched by the source. -/
def updateUserProfile (keystrokeDynamics : KeystrokeDynamics)
    (mouseMovements : MouseMovements) (deviceSensors : DeviceSensors)
    (now : ℤ) (profile : BiometricProfile) : BiometricProfile :=
  let avgDwellTime := jsAvg keystrokeDynamics.dwellTimes
  let avgFlightTime := jsAvg keystrokeDynamics.flightTimes
  let avgVelocity := jsAvg mouseMovements.velocity
  let avgAcceleration := jsAvg mouseMovements.acceleration
  { profile with
    keystrokeProfile := { profile.keystrokeProfile with
      avgDwellTime := emaBlend profile.keystrokeProfile.avgDwellTime avgDwellTime
      avgFlightTime := emaBlend profile.keystrokeProfile.avgFlightTime avgFlightTime
      preferredTypingSpeed := emaBlend profile.keystrokeProfile.preferredTypingSpeed
        (JSNum.fin keystrokeDynamics.typingSpeed) }
    mouseProfile := { profile.mouseProfile with
      avgVelocity := emaBlend profile.mouseProfile.avgVelocity avgVelocity
      avgAcceleration := emaBlend profile.mouseProfile.avgAcceleration avgAcceleration }
    deviceProfile := { profile.deviceProfile with
      accelerometerBaseline := emaVec3 profile.deviceProfile.accelerometerBaseline
        deviceSensors.accelerometer
      gyroscopeBaseline := emaVec3 profile.deviceProfile.gyroscopeBaseline
        deviceSensors.gyroscope }
    sessionCount := profile.sessionCount + 1
    lastUpdated := now
    confidence := JSNum.jsMin (JSNum.fin (95/100))
      (JSNum.add profile.confidence (JSNum.fin (1/100))) }

/-- Association-list lookup modelling `Map.get` (first matching key). -/
def mapGet? {α : Type} : List (String × α) → String → Option α
  | [], _ => none
  | p :: rest, k => if p.1 = k then some p.2 else mapGet? rest k

/-- Association-list update modelling `Map.set`: replaces the entry in
place if the key is present (keeping its position, as JS Map.set does),
else appends. -/
def mapSet {α : Type} : List (String × α) → String → α → List (String × α)
  | [], k, v => [(k, v)]
  | p :: rest, k, v => if p.1 = k then (k, v) :: rest else p :: mapSet rest k v

/-- Association-list removal modelling `Map.delete`. -/
def mapDelete {α : Type} (m : List (String × α)) (k : String) :
    List (String × α) :=
  m.filter (fun p => p.1 ≠ k)

/-- Mutable state of a `BiometricsProcessor` instance. -/
structure ProcessorState where
  userProfiles : List (String × BiometricProfile)
  sessionData : List (String × List BiometricData)
deriving DecidableEq

/-- Mirrors `processBiometricData` (biometrics-processor.ts, lines 99-131).
The profile synthesized by `generateBaselineProfile` for an unknown user is
built from `Math.random()` draws, so it is threaded as the explicit
parameter `fresh`.  When any of the three channel payloads is absent the
source throws a TypeError inside the corresponding analysis (modelled as
`Except.error`); by that point the profile creation and the session-data
push have already happened, and the profile EMA update has not — the
returned state reflects exactly that. -/
def processBiometricData (data : BiometricData) (fresh : BiometricProfile)
    (now : ℤ) (s : ProcessorState) :
    Except Unit (List BiometricAnomaly) × ProcessorState :=
  let userProfile := (mapGet? s.userProfiles data.userId).getD fresh
  let s₁ : ProcessorState :=
    { userProfiles := mapSet s.userProfiles data.userId userProfile
      sessionData := mapSet s.sessionData data.sessionId
        (((mapGet? s.sessionData data.sessionId).getD []) ++ [data]) }
  match data.keystrokeDynamics, data.mouseMovements, data.deviceSensors with
  | some keystrokeDynamics, some mouseMovements, some deviceSensors =>
      let anomalies :=
        analyzeKeystrokeDynamics keystrokeDynamics userProfile.keystrokeProfile ++
        analyzeMouseMovements mouseMovements userProfile.mouseProfile ++
        analyzeDeviceSensors deviceSensors userProfile.deviceProfile
      let updated := updateUserProfile keystrokeDynamics mouseMovements deviceSensors
        now userProfile
      (Except.ok anomalies,
       { s₁ with userProfiles := mapSet s₁.userProfiles data.userId updated })
  | _, _, _ => (Except.error (), s₁)

/-- Merchant part of a transaction. -/
structure Merchant where
  id : String
  name : String
  category : String
deriving DecidableEq

/-- Location part of a transaction. -/
structure Location where
  lat : ℚ
  lng : ℚ
  country : String
  city : String
deriving DecidableEq

/-- A transaction (`TransactionData` in types.ts). `timestamp` is epoch
milliseconds; `txHour` is the value `timestamp.getHours()` returns in the
server timezone (external data, carried as a field). -/
structure TransactionData where
  id : String
  userId : String
  amount : ℚ
  timestamp : ℤ
  txHour : ℕ
  location : Location
  merchant : Merchant
  deviceId : String
  paymentMethod : String
deriving DecidableEq

/-- Risk tiers. -/
inductive RiskLevel where
  | low
  | medium
  | high
deriving DecidableEq

/-- The explanation template strings of gnn-model.ts and the API routes,
with the interpolated values carried as data. -/
inductive Explanation where
  | highAmount (amount : ℚ)
  | unusualTime (hour : ℕ)
  | largeAtmWithdrawal (amount : ℚ)
  | unusualTypingPattern
  | anomalousBehavioralPatterns
  | biometric (description : AnomalyDesc)
deriving DecidableEq

/-- A node embedding produced by `GraphNeuralNetwork.processGraph`. -/
structure GNNEmbedding where
  nodeId : String
  embedding : List ℚ
deriving DecidableEq

/-- A fraud prediction (`FraudPrediction` in gnn-model.ts). -/
structure FraudPrediction where
  transactionId : String
  fraudProbability : ℚ
  riskLevel : RiskLevel
  explanation : List Explanation
  confidence : ℚ
deriving DecidableEq

/-- Mirrors `extractTransactionFeatures` (gnn-model.ts, lines 173-181);
the log-normalized amount is kept symbolically impossible in ℚ, so the
feature is carried as the raw amount tagged by position — the whole feature
vector is dead data: `computeFraudScore` receives and ignores it, exactly
as the source function ignores its `features` argument.  To keep the model
executable we store `amount + 1` in place of `log(amount + 1) / 10`;
no theorem reads this cell.  `clockHour` is `new Date().getHours()` at scoring
time. -/
def extractTransactionFeatures (transaction : TransactionData)
    (clockHour : ℕ) : List ℚ :=
  [transaction.amount + 1,
   (clockHour : ℚ) / 24,
   if transaction.paymentMethod = "credit_card" then 1 else 0,
   if transaction.merchant.category = "atm" then 1 else 0,
   if transaction.merchant.category = "retail" then 1 else 0]

/-- Mirrors `extractBiometricFeatures` (gnn-model.ts, lines 183-196); like
the transaction features, this vector is dead data downstream. -/
def extractBiometricFeatures (keystrokeDynamics : KeystrokeDynamics)
    (mouseMovements : MouseMovements) (deviceSensors : DeviceSensors) :
    List JSNum :=
  let avgDwellTime := jsAvg keystrokeDynamics.dwellTimes
  let avgVelocity := jsAvg mouseMovements.velocity
  [JSNum.div avgDwellTime (JSNum.fin 200),
   JSNum.fin (keystrokeDynamics.typingSpeed / 100),
   JSNum.div avgVelocity (JSNum.fin 1000),
   JSNum.abs (JSNum.ofOpt (deviceSensors.accelerometer.get? 0)),
   JSNum.div (JSNum.abs (JSNum.ofOpt (deviceSensors.gyroscope.get? 0)))
     (JSNum.fin 360)]

/-- Mirrors `computeFraudScore` (gnn-model.ts, lines 198-217).  The
`features` argument is received and never read, exactly as in the source.
`clockHour` is the value of `new Date().getHours()` at scoring time — the
source reads the wall clock here, NOT the transaction timestamp.  `noise`
is the `Math.random() * 0.2` draw. -/
def computeFraudScore (features : List JSNum) (transaction : TransactionData)
    (clockHour : ℕ) (noise : ℚ) : ℚ :=
  let score : ℚ := 0
  let score := if transaction.amount > 1000 then score + 3/10 else score
  let score := if transaction.amount > 5000 then score + 4/10 else score
  let score := if clockHour < 6 ∨ clockHour > 22 then score + 2/10 else score
  let score := if transaction.merchant.category = "atm" ∧ transaction.amount > 500
    then score + 3/10 else score
  score + noise

/-- Mirrors `generateExplanation` (gnn-model.ts, lines 219-244); again the
hour tested is the scoring-time wall-clock hour. -/
def generateExplanation (transaction : TransactionData)
    (keystrokeDynamics : KeystrokeDynamics) (fraudProb : ℚ) (clockHour : ℕ) :
    List Explanation :=
  let explanations : List Explanation :=
    (if transaction.amount > 1000 then [Explanation.highAmount transaction.amount]
     else []) ++
    (if clockHour < 6 ∨ clockHour > 22 then [Explanation.unusualTime clockHour]
     else []) ++
    (if transaction.merchant.category = "atm" ∧ transaction.amount > 500 then
      [Explanation.largeAtmWithdrawal transaction.amount] else []) ++
    (if keystrokeDynamics.typingSpeed < 30 then [Explanation.unusualTypingPattern]
     else [])
  if fraudProb > 1/2 ∧ explanations = [] then
    [Explanation.anomalousBehavioralPatterns]
  else explanations

/-- Mirrors `predictFraud` (gnn-model.ts, lines 131-171) on a sample whose
three channel payloads are present.  `noise` is the `Math.random() * 0.2`
draw inside `computeFraudScore` and `confRand` the `Math.random()` draw of
the simulated confidence. -/
def predictFraudCore (transaction : TransactionData)
    (keystrokeDynamics : KeystrokeDynamics) (mouseMovements : MouseMovements)
    (deviceSensors : DeviceSensors) (graphEmbeddings : List GNNEmbedding)
    (clockHour : ℕ) (noise confRand : ℚ) : FraudPrediction :=
  let findEmb := fun (nodeId : String) =>
    ((graphEmbeddings.find? (fun e => e.nodeId = nodeId)).map
      (fun e => e.embedding)).getD []
  let userEmbedding := findEmb transaction.userId
  let merchantEmbedding := findEmb transaction.merchant.id
  let deviceEmbedding := findEmb transaction.deviceId
  let transactionFeatures := extractTransactionFeatures transaction clockHour
  let biometricFeatures := extractBiometricFeatures keystrokeDynamics
    mouseMovements deviceSensors
  let allFeatures :=
    transactionFeatures.map JSNum.fin ++ biometricFeatures ++
    (userEmbedding.take 10).map JSNum.fin ++
    (merchantEmbedding.take 10).map JSNum.fin ++
    (deviceEmbedding.take 10).map JSNum.fin
  let fraudScore := computeFraudScore allFeatures transaction clockHour noise
  let fraudProbability := max 0 (min 1 fraudScore)
  let riskLevel :=
    if fraudProbability > 7/10 then RiskLevel.high
    else if fraudProbability > 4/10 then RiskLevel.medium
    else RiskLevel.low
  { transactionId := transaction.id
    fraudProbability := fraudProbability
    riskLevel := riskLevel
    explanation := generateExplanation transaction keystrokeDynamics
      fraudProbability clockHour
    confidence := confRand * (3/10) + 7/10 }

/-- `predictFraud` on a raw sample: accessing a missing channel payload
throws (in `extractBiometricFeatures` or `generateExplanation`), modelled
as `Except.error`. -/
def predictFraud (transaction : TransactionData) (biometric : BiometricData)
    (graphEmbeddings : List GNNEmbedding) (clockHour : ℕ)
    (noise confRand : ℚ) : Except Unit FraudPrediction :=
  match biometric.keystrokeDynamics, biometric.mouseMovements,
      biometric.deviceSensors with
  | some keystrokeDynamics, some mouseMovements, some deviceSensors =>
      Except.ok (predictFraudCore transaction keystrokeDynamics mouseMovements
        deviceSensors graphEmbeddings clockHour noise confRand)
  | _, _, _ => Except.error ()

/-- Node kinds of the transaction graph. -/
inductive NodeType where
  | user
  | device
  | merchant
  | location
deriving DecidableEq

/-- Type-specific node properties (`properties: Record<string, any>` in the
source, whose four concrete shapes are these). -/
inductive NodeProps where
  | user (userId : String)
  | merchant (name category : String)
  | device (deviceId : String)
  | location (loc : Location)
deriving DecidableEq

/-- A graph node. -/
structure GraphNode where
  id : String
  type : NodeType
  props : NodeProps
deriving DecidableEq

/-- A graph edge. -/
structure GraphEdge where
  source : String
  target : String
  type : String
  weight : ℚ
  timestamp : ℤ
deriving DecidableEq

/-- The user node a transaction induces. -/
def userNodeOf (tx : TransactionData) : GraphNode :=
  { id := tx.userId, type := NodeType.user, props := NodeProps.user tx.userId }

/-- The merchant node a transaction induces. -/
def merchantNodeOf (tx : TransactionData) : GraphNode :=
  { id := tx.merchant.id, type := NodeType.merchant
    props := NodeProps.merchant tx.merchant.name tx.merchant.category }

/-- The device node a transaction induces. -/
def deviceNodeOf (tx : TransactionData) : GraphNode :=
  { id := tx.deviceId, type := NodeType.device, props := NodeProps.device tx.deviceId }

/-- The composite location key `city_country`. -/
def locationIdOf (tx : TransactionData) : String :=
  tx.location.city ++ "_" ++ tx.location.country

/-- The location node a transaction induces. -/
def locationNodeOf (tx : TransactionData) : GraphNode :=
  { id := locationIdOf tx, type := NodeType.location
    props := NodeProps.location tx.location }

/-- The four candidate nodes of one transaction, in the order the source
visits them. -/
def txNodes (tx : TransactionData) : List GraphNode :=
  [userNodeOf tx, merchantNodeOf tx, deviceNodeOf tx, locationNodeOf tx]

/-- The three edges one transaction pushes, in source order. -/
def txEdges (tx : TransactionData) : List GraphEdge :=
  [{ source := tx.userId, target := tx.merchant.id, type := "transacted_with"
     weight := tx.amount, timestamp := tx.timestamp },
   { source := tx.userId, target := tx.deviceId, type := "used_device"
     weight := 1, timestamp := tx.timestamp },
   { source := tx.deviceId, target := locationIdOf tx, type := "located_at"
     weight := 1, timestamp := tx.timestamp }]

/-- Insert a node unless a node with the same id was already emitted
(the `nodeMap.has` guard of the source; the map keys are exactly the ids of
the emitted nodes). -/
def insertNode (nodes : List GraphNode) (n : GraphNode) : List GraphNode :=
  if nodes.any (fun m => m.id = n.id) then nodes else nodes ++ [n]

/-- Process one transaction of `GraphBuilder.buildTransactionGraph`. -/
def buildStep (acc : List GraphNode × List GraphEdge) (tx : TransactionData) :
    List GraphNode × List GraphEdge :=
  ((txNodes tx).foldl insertNode acc.1, acc.2 ++ txEdges tx)

/-- Mirrors `GraphBuilder.buildTransactionGraph` (data-ingestion.ts, lines
159-240). -/
def buildTransactionGraph (transactions : List TransactionData) :
    List GraphNode × List GraphEdge :=
  transactions.foldl buildStep ([], [])

/-- JS `Math.round(q * 100) / 100` (round half toward positive infinity),
applied by both API routes to the returned probability. -/
def jsRound2 (q : ℚ) : ℚ := (Int.floor (q * 100 + 1/2) : ℚ) / 100

/-- Number of anomalies of a given severity. -/
def countSeverity (anomalies : List BiometricAnomaly) (sev : Severity) : ℕ :=
  (anomalies.filter (fun a => a.severity = sev)).length

/-- The biometric-adjusted probability both routes compute: the prediction
probability plus 0.2 per high-severity and 0.1 per medium-severity anomaly,
clipped above at 1. -/
def adjustedProbability (base : ℚ) (anomalies : List BiometricAnomaly) : ℚ :=
  min 1 (base + (countSeverity anomalies Severity.high : ℚ) * (2/10)
    + (countSeverity anomalies Severity.medium : ℚ) * (1/10))

/-- The risk banding both routes apply to the adjusted probability. -/
def bandOf (p : ℚ) : RiskLevel :=
  if p > 7/10 then RiskLevel.high
  else if p > 4/10 then RiskLevel.medium
  else RiskLevel.low

/-- Response shape of the single-transaction route (metadata strings such
as responseTime / timestamp / modelVersion elided). -/
structure FraudDetectionResponse where
  transactionId : String
  fraudProbability : ℚ
  riskLevel : RiskLevel
  explanation : List Explanation
  biometricAnomalies : ℕ
  graphNodes : ℕ
  confidence : ℚ
deriving DecidableEq

/-- The per-request random draws of a scoring run. -/
structure ScoreRand where
  noise : ℚ
  confRand : ℚ
deriving DecidableEq

/-- Mirrors the POST handler of the real-time scoring route (src/unnamed/
part_002, lines 22-102).  `graphEmbeddings` stands for the output of
`gnnModel.processGraph` on the built graph: that function maps random
weights through `tanh` and its output is consumed only by the dead
`features` vector, so the model quantifies over an arbitrary embedding
list instead of reproducing transcendental arithmetic (every theorem below
therefore holds whatever `processGraph` returns).  A missing transaction
or biometric is rejected with HTTP 400 before any state mutation. -/
def singleScorePOST (transaction? : Option TransactionData)
    (biometric? : Option BiometricData)
    (recentTransactions : List TransactionData)
    (graphEmbeddings : List GNNEmbedding) (fresh : BiometricProfile)
    (clockHour : ℕ) (rand : ScoreRand) (now : ℤ) (s : ProcessorState) :
    Except String FraudDetectionResponse × ProcessorState :=
  match transaction?, biometric? with
  | some transaction, some biometric =>
      let processed := processBiometricData biometric fresh now s
      let s₁ := processed.2
      match processed.1 with
      | Except.error _ => (Except.error "Internal server error", s₁)
      | Except.ok biometricAnomalies =>
          let graph := buildTransactionGraph recentTransactions
          match predictFraud transaction biometric graphEmbeddings clockHour
              rand.noise rand.confRand with
          | Except.error _ => (Except.error "Internal server error", s₁)
          | Except.ok fraudPrediction =>
              let combinedExplanation := fraudPrediction.explanation ++
                biometricAnomalies.map (fun a => Explanation.biometric a.description)
              let adjusted := adjustedProbability fraudPrediction.fraudProbability
                biometricAnomalies
              (Except.ok
                { transactionId := transaction.id
                  fraudProbability := jsRound2 adjusted
                  riskLevel := bandOf adjusted
                  explanation := combinedExplanation
                  biometricAnomalies := biometricAnomalies.length
                  graphNodes := graph.1.length
                  confidence := fraudPrediction.confidence }, s₁)
  | _, _ => (Except.error "Missing required transaction or biometric data", s)

/-- One entry of the batch-route results array.  On the two failure paths
the source returns an object without explanation / biometricAnomalies /
confidence fields; those are `none` here. -/
structure BatchItemResult where
  transactionId : String
  error : Option String
  fraudProbability : ℚ
  riskLevel : RiskLevel
  explanation : Option (List Explanation)
  biometricAnomalies : Option ℕ
  confidence : Option ℚ
deriving DecidableEq

/-- The degraded default item of the batch route: probability 0.5, medium
risk, error flag set. -/
def degradedItem (txId : String) (msg : String) : BatchItemResult :=
  { transactionId := txId, error := some msg, fraudProbability := 1/2
    riskLevel := RiskLevel.medium, explanation := none
    biometricAnomalies := none, confidence := none }

/-- Processing of one batch item (the map callback of src/unnamed/part_001,
lines 44-96): missing biometric short-circuits to a degraded item; an
internal throw (modelled by the `Except.error` paths) is caught and
degrades the item; otherwise the combined verdict is produced. -/
def batchProcessItem (graphEmbeddings : List GNNEmbedding)
    (fresh : String → BiometricProfile) (clockHour : ℕ) (rand : ScoreRand)
    (now : ℤ) (transaction : TransactionData)
    (biometric? : Option BiometricData) (s : ProcessorState) :
    BatchItemResult × ProcessorState :=
  match biometric? with
  | none => (degradedItem transaction.id "Missing biometric data", s)
  | some biometric =>
      let processed := processBiometricData biometric (fresh biometric.userId) now s
      let s₁ := processed.2
      match processed.1 with
      | Except.error _ => (degradedItem transaction.id "Processing failed", s₁)
      | Except.ok biometricAnomalies =>
          match predictFraud transaction biometric graphEmbeddings clockHour
              rand.noise rand.confRand with
          | Except.error _ => (degradedItem transaction.id "Processing failed", s₁)
          | Except.ok fraudPrediction =>
              let adjusted := adjustedProbability fraudPrediction.fraudProbability
                biometricAnomalies
              ({ transactionId := transaction.id
                 error := none
                 fraudProbability := jsRound2 adjusted
                 riskLevel := bandOf adjusted
                 explanation := some (fraudPrediction.explanation ++
                   biometricAnomalies.map (fun a => Explanation.biometric a.description))
                 biometricAnomalies := some biometricAnomalies.length
                 confidence := some fraudPrediction.confidence }, s₁)

/-- The item loop of the batch route.  `biometrics?.[index]` is an
out-of-range access when the biometrics array is shorter than the
transactions array, handled like a missing biometric.  The async callbacks
contain no interior await before the state-mutating calls, so the shared
`BiometricsProcessor` state is threaded in item order. -/
def batchItemsGo (graphEmbeddings : List GNNEmbedding)
    (fresh : String → BiometricProfile) (clockHour : ℕ)
    (rands : ℕ → ScoreRand) (now : ℤ)
    (biometrics : List (Option BiometricData)) :
    ℕ → List TransactionData → ProcessorState →
    List BatchItemResult × ProcessorState
  | _, [], s => ([], s)
  | i, transaction :: rest, s =>
      let biometric? := (biometrics.get? i).join
      let step := batchProcessItem graphEmbeddings fresh clockHour (rands i) now
        transaction biometric? s
      let tail := batchItemsGo graphEmbeddings fresh clockHour rands now
        biometrics (i + 1) rest step.2
      (step.1 :: tail.1, tail.2)

/-- Summary block of the batch response. -/
structure BatchSummary where
  totalTransactions : ℕ
  highRisk : ℕ
  mediumRisk : ℕ
  lowRisk : ℕ
  errors : ℕ
deriving DecidableEq

/-- The summary block the batch route computes from its results array. -/
def batchSummaryOf (results : List BatchItemResult) (total : ℕ) : BatchSummary :=
  { totalTransactions := total
    highRisk := (results.filter (fun r => r.riskLevel = RiskLevel.high)).length
    mediumRisk := (results.filter (fun r => r.riskLevel = RiskLevel.medium)).length
    lowRisk := (results.filter (fun r => r.riskLevel = RiskLevel.low)).length
    errors := (results.filter (fun r => r.error.isSome)).length }

/-- Batch response (performance metadata elided). -/
structure BatchResponse where
  results : List BatchItemResult
  summary : BatchSummary
deriving DecidableEq

/-- Mirrors the POST handler of the batch scoring route (src/unnamed/
part_001, lines 20-118).  As for the single route, `graphEmbeddings`
stands for the `processGraph` output on the graph built from
`recentTransactions ++ transactions`. -/
def batchScorePOST (transactions : List TransactionData)
    (biometrics : List (Option BiometricData))
    (recentTransactions : List TransactionData)
    (graphEmbeddings : List GNNEmbedding)
    (fresh : String → BiometricProfile) (clockHour : ℕ)
    (rands : ℕ → ScoreRand) (now : ℤ) (s : ProcessorState) :
    Except String BatchResponse × ProcessorState :=
  if transactions.isEmpty then
    (Except.error "Missing or invalid transactions array", s)
  else
    let _graph := buildTransactionGraph (recentTransactions ++ transactions)
    let items := batchItemsGo graphEmbeddings fresh clockHour rands now
      biometrics 0 transactions s
    let results := items.1
    (Except.ok
      { results := results
        summary := batchSummaryOf results transactions.length },
     items.2)

/-- Feedback labels. -/
inductive ActualLabel where
  | fraud
  | legitimate
  | unknown
deriving DecidableEq

/-- Feedback evidence kinds. -/
inductive EvidenceType where
  | manual_review
  | customer_dispute
  | bank_confirmation
  | automated_verification
deriving DecidableEq

/-- A feedback record (`FeedbackData`).  `actualLabel` is `Option` because
a JSON body may omit it; for the two string ids, JS falsiness makes the
empty string behave like an absent field, so absence is modelled by `""`. -/
structure FeedbackData where
  transactionId : String
  actualLabel : Option ActualLabel
  confidence : ℚ
  reviewerId : String
  reviewTimestamp : ℤ
  notes : Option String
  evidenceType : EvidenceType
deriving DecidableEq

/-- Update kinds. -/
inductive UpdateType where
  | incremental
  | full_retrain
deriving DecidableEq

/-- Update priorities. -/
inductive Priority where
  | low
  | medium
  | high
deriving DecidableEq

/-- The numeric order `{ high: 3, medium: 2, low: 1 }` of the queue sort. -/
def priorityOrder : Priority → ℕ
  | Priority.high => 3
  | Priority.medium => 2
  | Priority.low => 1

/-- A queued model update request. -/
structure ModelUpdateRequest where
  feedbackBatch : List FeedbackData
  updateType : UpdateType
  priority : Priority
  scheduledTime : Option ℤ
deriving DecidableEq

/-- An active-learning review query. -/
structure ActiveLearningQuery where
  transactionId : String
  uncertaintyScore : ℚ
  diversityScore : ℚ
  importanceScore : ℚ
  queryReason : List String
  suggestedReviewers : List String
deriving DecidableEq

/-- Aggregate model performance metrics. -/
structure ModelPerformanceMetrics where
  accuracy : ℚ
  precision : ℚ
  «recall» : ℚ
  f1Score : ℚ
  falsePositiveRate : ℚ
  falseNegativeRate : ℚ
  auc : ℚ
  lastUpdated : ℤ
  sampleSize : ℕ
deriving DecidableEq

/-- Mutable state of a `FeedbackSystem` instance. -/
structure FSState where
  feedbackHistory : List (String × FeedbackData)
  pendingReviews : List (String × ActiveLearningQuery)
  modelPerformance : ModelPerformanceMetrics
  updateQueue : List ModelUpdateRequest
  reviewerWorkload : List (String × ℕ)
deriving DecidableEq

/-- The validation guard of `submitFeedback`:
`!transactionId || !actualLabel || !reviewerId`. -/
def validFeedback (feedback : FeedbackData) : Bool :=
  feedback.transactionId ≠ "" && feedback.actualLabel.isSome &&
    feedback.reviewerId ≠ ""

/-- Mirrors `shouldTriggerImmediateUpdate` (part_004, lines 285-297); the
source calls it after the record has been stored, so the trailing-hour
count is taken on the post-insert history. -/
def shouldTriggerImmediateUpdate (feedback : FeedbackData) (now : ℤ)
    (s : FSState) : Bool :=
  (feedback.confidence > 9/10 && feedback.evidenceType = EvidenceType.bank_confirmation) ||
  (((s.feedbackHistory.map Prod.snd).filter
      (fun f => now - f.reviewTimestamp < 3600000)).length ≥ 10)

/-- Mirrors `queueModelUpdate` (part_004, lines 299-318): the scheduled
time is `now` plus 0 / 5 min / 30 min by priority, and the queue is
re-sorted descending by priority (stable, as the ES2019+ Array.sort the
source relies on). -/
def queueModelUpdate (feedbackBatch : List FeedbackData)
    (updateType : UpdateType) (priority : Priority) (now : ℤ) (s : FSState) :
    FSState :=
  let updateRequest : ModelUpdateRequest :=
    { feedbackBatch := feedbackBatch
      updateType := updateType
      priority := priority
      scheduledTime := some (now +
        (if priority = Priority.high then 0
         else if priority = Priority.medium then 300000 else 1800000)) }
  let sorted := (s.updateQueue ++ [updateRequest]).mergeSort
    (fun a b => priorityOrder b.priority ≤ priorityOrder a.priority)
  { s with updateQueue := sorted }

/-- Mirrors `submitFeedback` (part_004, lines 82-106): validation before
any mutation; then store (latest wins), remove from pending review,
increment the reviewer workload, and possibly enqueue an immediate
high-priority incremental update. -/
def submitFeedback (feedback : FeedbackData) (now : ℤ) (s : FSState) :
    Except String Unit × FSState :=
  if ¬validFeedback feedback then
    (Except.error "Invalid feedback data: missing required fields", s)
  else
    let s₁ : FSState := { s with
      feedbackHistory := mapSet s.feedbackHistory feedback.transactionId feedback
      pendingReviews := mapDelete s.pendingReviews feedback.transactionId
      reviewerWorkload := mapSet s.reviewerWorkload feedback.reviewerId
        (((mapGet? s.reviewerWorkload feedback.reviewerId).getD 0) + 1) }
    if shouldTriggerImmediateUpdate feedback now s₁ then
      (Except.ok (), queueModelUpdate [feedback] UpdateType.incremental
        Priority.high now s₁)
    else (Except.ok (), s₁)

/-- Mirrors `calculateUncertaintyScore` (part_004, lines 168-177). -/
def calculateUncertaintyScore (prediction : FraudDetectionResponse) : ℚ :=
  max (1 - |prediction.fraudProbability - 1/2| * 2) (1 - prediction.confidence)

/-- Mirrors `calculateDiversityScore` (part_004, lines 179-204); the
`biometric` argument is received and never read, as in the source.  The
`slice(-100)` window only matters through its length. -/
def calculateDiversityScore (transaction : TransactionData)
    (biometric : BiometricData) (s : FSState) : ℚ :=
  let recentTransactions := ((s.feedbackHistory.map Prod.snd).drop
    (s.feedbackHistory.length - 100)).map (fun f => f.transactionId)
  if recentTransactions.length < 10 then 8/10
  else
    let isUnusualTime := transaction.txHour < 6 ∨ transaction.txHour > 22
    let isHighAmount := transaction.amount > 1000
    let isUnusualMerchant := transaction.merchant.category = "atm"
    let diversityScore : ℚ := 3/10
    let diversityScore := if isUnusualTime then diversityScore + 2/10 else diversityScore
    let diversityScore := if isHighAmount then diversityScore + 3/10 else diversityScore
    let diversityScore := if isUnusualMerchant then diversityScore + 2/10 else diversityScore
    min 1 diversityScore

/-- Mirrors `calculateImportanceScore` (part_004, lines 206-226). -/
def calculateImportanceScore (transaction : TransactionData)
    (prediction : FraudDetectionResponse) : ℚ :=
  let importanceScore : ℚ := 0
  let importanceScore := if transaction.amount > 5000 then importanceScore + 4/10
    else if transaction.amount > 1000 then importanceScore + 2/10
    else importanceScore
  let importanceScore := if prediction.riskLevel = RiskLevel.high then
      importanceScore + 3/10
    else if prediction.riskLevel = RiskLevel.medium then importanceScore + 1/10
    else importanceScore
  let importanceScore := if prediction.explanation.length > 2 then
    importanceScore + 2/10 else importanceScore
  let importanceScore := if transaction.merchant.category ∈ ["bank", "atm", "financial"]
    then importanceScore + 1/10 else importanceScore
  min 1 importanceScore

/-- Mirrors `generateQueryReasons` (part_004, lines 228-261). -/
def generateQueryReasons (prediction : FraudDetectionResponse)
    (transaction : TransactionData) (uncertaintyScore diversityScore : ℚ) :
    List String :=
  (if uncertaintyScore > 7/10 then
    ["Model uncertainty: prediction confidence is low"] else []) ++
  (if |prediction.fraudProbability - 1/2| < 1/10 then
    ["Borderline case: fraud probability near decision threshold"] else []) ++
  (if diversityScore > 6/10 then
    ["Novel transaction pattern: different from training data"] else []) ++
  (if transaction.amount > 5000 then
    ["High-value transaction: requires manual verification"] else []) ++
  (if prediction.explanation.length > 3 then
    ["Complex case: multiple risk factors identified"] else []) ++
  (if prediction.biometricAnomalies > 2 then
    ["Behavioral anomalies: unusual user interaction patterns"] else [])

/-- Keep only the first occurrence of each element, as
`[...new Set(xs)]` does. -/
def dedupFirst (l : List String) : List String :=
  l.foldl (fun acc x => if x ∈ acc then acc else acc ++ [x]) []

/-- Mirrors `suggestReviewers` (part_004, lines 263-283). -/
def suggestReviewers (prediction : FraudDetectionResponse)
    (transaction : TransactionData) (s : FSState) : List String :=
  let sortedReviewers := s.reviewerWorkload.mergeSort (fun a b => a.2 ≤ b.2)
  dedupFirst
    ((if prediction.riskLevel = RiskLevel.high ∨ transaction.amount > 10000 then
       ["senior_analyst_001"] else []) ++
     (if prediction.biometricAnomalies > 2 then ["ml_engineer_001"] else []) ++
     (sortedReviewers.take 2).map (fun r => r.1))

/-- Combined active-learning score
`0.4 * uncertainty + 0.3 * diversity + 0.3 * importance`. -/
def combinedScoreOf (q : ActiveLearningQuery) : ℚ :=
  q.uncertaintyScore * (4/10) + q.diversityScore * (3/10) +
    q.importanceScore * (3/10)

/-- One iteration of the selection loop of
`identifyUncertainTransactions`: skip ids that already have feedback,
otherwise score and, above the 0.6 threshold, append the query and record
it as pending. -/
def identifyStep (s : FSState)
    (acc : List ActiveLearningQuery × List (String × ActiveLearningQuery))
    (item : FraudDetectionResponse × TransactionData × BiometricData) :
    List ActiveLearningQuery × List (String × ActiveLearningQuery) :=
  let prediction := item.1
  let transaction := item.2.1
  let biometric := item.2.2
  if (mapGet? s.feedbackHistory prediction.transactionId).isSome then acc
  else
    let uncertaintyScore := calculateUncertaintyScore prediction
    let diversityScore := calculateDiversityScore transaction biometric s
    let importanceScore := calculateImportanceScore transaction prediction
    let combinedScore := uncertaintyScore * (4/10) + diversityScore * (3/10) +
      importanceScore * (3/10)
    if combinedScore > 6/10 then
      let query : ActiveLearningQuery :=
        { transactionId := prediction.transactionId
          uncertaintyScore := uncertaintyScore
          diversityScore := diversityScore
          importanceScore := importanceScore
          queryReason := generateQueryReasons prediction transaction
            uncertaintyScore diversityScore
          suggestedReviewers := suggestReviewers prediction transaction s }
      (acc.1 ++ [query], mapSet acc.2 prediction.transactionId query)
    else acc

/-- The selection loop of `identifyUncertainTransactions`.  The loop reads
`feedbackHistory` and `reviewerWorkload` (never written inside the loop)
and writes only `pendingReviews`. -/
def identifyGo (s : FSState)
    (items : List (FraudDetectionResponse × TransactionData × BiometricData)) :
    List ActiveLearningQuery × List (String × ActiveLearningQuery) :=
  items.foldl (identifyStep s) ([], s.pendingReviews)

/-- Mirrors `identifyUncertainTransactions` (part_004, lines 109-166):
skip ids that already have feedback, keep combined score > 0.6, record all
kept queries as pending, return the kept queries sorted descending by
combined score, truncated to the top 10. -/
def identifyUncertainTransactions (predictions : List FraudDetectionResponse)
    (transactions : List TransactionData) (biometrics : List BiometricData)
    (s : FSState) : List ActiveLearningQuery × FSState :=
  let items := predictions.zip (transactions.zip biometrics)
  let acc := identifyGo s items
  ((acc.1.mergeSort (fun a b => combinedScoreOf b ≤ combinedScoreOf a)).take 10,
   { s with pendingReviews := acc.2 })

/-- Mirrors `updateModelPerformanceFromFeedback` (part_004, lines
348-360). -/
def updateModelPerformanceFromFeedback (feedbackBatch : List FeedbackData)
    (now : ℤ) (m : ModelPerformanceMetrics) : ModelPerformanceMetrics :=
  let improvementFactor := min (2/100) ((feedbackBatch.length : ℚ) * (1/1000))
  let precision := min (99/100) (m.precision + improvementFactor * (8/10))
  let «recall» := min (99/100) (m.«recall» + improvementFactor * (12/10))
  { m with
    accuracy := min (99/100) (m.accuracy + improvementFactor)
    precision := precision
    «recall» := «recall»
    f1Score := 2 * precision * «recall» / (precision + «recall»)
    lastUpdated := now
    sampleSize := m.sampleSize + feedbackBatch.length }

/-- Whether a queued update is due (`!update.scheduledTime ||
update.scheduledTime <= now`). -/
def updateReady (now : ℤ) (u : ModelUpdateRequest) : Bool :=
  match u.scheduledTime with
  | none => true
  | some t => t ≤ now

/-- Mirrors `processUpdateQueue` (part_004, lines 320-334): every due
update is executed and removed.  The source removes each executed request
by object identity; since `executeModelUpdate` cannot throw, every due
request is executed exactly once and removed, which is what this function
computes. -/
def processUpdateQueue (now : ℤ) (s : FSState) : FSState :=
  { s with
    updateQueue := s.updateQueue.filter (fun u => ¬updateReady now u)
    modelPerformance := (s.updateQueue.filter (updateReady now)).foldl
      (fun m u => updateModelPerformanceFromFeedback u.feedbackBatch now m)
      s.modelPerformance }

/-- Mirrors `updateModelPerformance` (part_004, lines 362-376), the
periodic drift tick; `randomVariation` is the `(Math.random() - 0.5) * 0.01`
draw. -/
def updateModelPerformanceDrift (randomVariation : ℚ)
    (m : ModelPerformanceMetrics) : ModelPerformanceMetrics :=
  let precision := max (8/10) (min (99/100) (m.precision + randomVariation))
  let «recall» := max (85/100) (min (99/100) (m.«recall» + randomVariation))
  { m with
    accuracy := max (85/100) (min (99/100) (m.accuracy + randomVariation))
    precision := precision
    «recall» := «recall»
    f1Score := 2 * precision * «recall» / (precision + «recall»)
    falsePositiveRate := 1 - precision
    falseNegativeRate := 1 - «recall» }

/-- Mirrors `submitBatchFeedback` (part_004, lines 416-425): records are
submitted one by one; a validation failure propagates (leaving the earlier
submissions applied and skipping the batch enqueue); if all succeed and the
batch has at least 5 records, a medium-priority incremental update is
enqueued. -/
def submitFeedbackAll (now : ℤ) :
    List FeedbackData → FSState → Except String Unit × FSState
  | [], st => (Except.ok (), st)
  | fb :: rest, st =>
      match submitFeedback fb now st with
      | (Except.error e, st₁) => (Except.error e, st₁)
      | (Except.ok _, st₁) => submitFeedbackAll now rest st₁

/-- Mirrors `submitBatchFeedback` (part_004, lines 416-425), continued:
the per-record loop is `submitFeedbackAll` above. -/
def submitBatchFeedback (feedbackBatch : List FeedbackData) (now : ℤ)
    (s : FSState) : Except String Unit × FSState :=
  match submitFeedbackAll now feedbackBatch s with
  | (Except.error e, s₁) => (Except.error e, s₁)
  | (Except.ok _, s₁) =>
      if feedbackBatch.length ≥ 5 then
        (Except.ok (), queueModelUpdate feedbackBatch UpdateType.incremental
          Priority.medium now s₁)
      else (Except.ok (), s₁)

/-- Every state-mutating entry point of the `FeedbackSystem`, as one step
relation (read-only accessors omitted: they do not change state). -/
inductive FSOp where
  | submit (feedback : FeedbackData) (now : ℤ)
  | submitBatch (feedbackBatch : List FeedbackData) (now : ℤ)
  | identify (predictions : List FraudDetectionResponse)
      (transactions : List TransactionData) (biometrics : List BiometricData)
  | tickQueue (now : ℤ)
  | tickDrift (randomVariation : ℚ)

/-- Apply one mutating operation to the feedback-system state. -/
def applyFSOp (op : FSOp) (s : FSState) : FSState :=
  match op with
  | FSOp.submit feedback now => (submitFeedback feedback now s).2
  | FSOp.submitBatch feedbackBatch now => (submitBatchFeedback feedbackBatch now s).2
  | FSOp.identify predictions transactions biometrics =>
      (identifyUncertainTransactions predictions transactions biometrics s).2
  | FSOp.tickQueue now => processUpdateQueue now s
  | FSOp.tickDrift randomVariation => updateModelPerformanceDrift randomVariation s.modelPerformance |> fun m => { s with modelPerformance := m }

/-
Claim-side reference definitions.  The next two definitions follow the
WORDING of the specification (not the source); they exist only to be
compared against the source-derived definitions above in the refinement
claims about the device-sensor deviation and the night-hour rule.
-/

/-- Written from the claim wording of C8: the square of the RMS over the
vector components of the RELATIVE deviations
`|observed_i − baseline_i| / baseline_i` (the source instead computes an
absolute RMS, without the division). -/
def relVectorDeviationSq (current baseline : List ℚ) : ℚ :=
  (((current.zip baseline).map (fun p => ((p.1 - p.2) / p.2) ^ 2)).sum) /
    (current.length : ℚ)

/-- Written from the claim wording of C4: the base-score rule sum keyed on
the TRANSACTION hour (`txHour`), where the source keys the night rule on
the scoring-time wall-clock hour. -/
def claimBaseScore (transaction : TransactionData) (noise : ℚ) : ℚ :=
  (if transaction.amount > 1000 then (3 : ℚ)/10 else 0) +
  (if transaction.amount > 5000 then (4 : ℚ)/10 else 0) +
  (if transaction.txHour < 6 ∨ transaction.txHour > 22 then (2 : ℚ)/10 else 0) +
  (if transaction.merchant.category = "atm" ∧ transaction.amount > 500
    then (3 : ℚ)/10 else 0) + noise

/-
Concrete fixtures used by witnesses and counterexamples.
-/

/-- A high-value ATM transaction with transaction hour 2 (the C4 scenario
transaction). -/
def fixTx6000 : TransactionData :=
  { id := "tx_6000", userId := "user_fix", amount := 6000, timestamp := 1700000000000
    txHour := 2
    location := { lat := 40, lng := -74, country := "US", city := "New York" }
    merchant := { id := "merch_atm", name := "ATM_001", category := "atm" }
    deviceId := "device_1", paymentMethod := "credit_card" }

/-- A keystroke sample matching `fixKeystrokeProfile` exactly. -/
def fixKd : KeystrokeDynamics :=
  { dwellTimes := [100, 100], flightTimes := [70, 70], typingSpeed := 50 }

/-- A mouse sample matching `fixMouseProfile` exactly (zero variance, so
the movement pattern classifies as smooth). -/
def fixMm : MouseMovements :=
  { velocity := [400, 400], acceleration := [200, 200], clickPatterns := [250] }

/-- A device-sensor sample matching `fixDeviceProfile` exactly. -/
def fixDs : DeviceSensors :=
  { accelerometer := [0, 0, 0], gyroscope := [1, 1, 1], orientation := 100 }

/-- A keystroke profile agreeing with `fixKd`. -/
def fixKeystrokeProfile : KeystrokeProfile :=
  { avgDwellTime := JSNum.fin 100, avgFlightTime := JSNum.fin 70
    dwellTimeVariance := JSNum.fin 15, flightTimeVariance := JSNum.fin 12
    typingRhythm := [], preferredTypingSpeed := JSNum.fin 50
    keyPressurePattern := [] }

/-- A mouse profile agreeing with `fixMm`. -/
def fixMouseProfile : MouseProfile :=
  { avgVelocity := JSNum.fin 400, avgAcceleration := JSNum.fin 200
    clickRhythm := [], movementPattern := MovementPattern.smooth
    preferredClickSpeed := JSNum.fin 250, scrollBehavior := [] }

/-- A device profile agreeing with `fixDs`. -/
def fixDeviceProfile : DeviceProfile :=
  { orientationPreference := JSNum.fin 100
    accelerometerBaseline := [JSNum.fin 0, JSNum.fin 0, JSNum.fin 0]
    gyroscopeBaseline := [JSNum.fin 1, JSNum.fin 1, JSNum.fin 1]
    deviceStability := JSNum.fin (1/2), handedness := Handedness.right }

/-- A stored profile that matches the fixture sample exactly, so the
sample produces no anomalies against it. -/
def fixProfile : BiometricProfile :=
  { userId := "user_fix", keystrokeProfile := fixKeystrokeProfile
    mouseProfile := fixMouseProfile, deviceProfile := fixDeviceProfile
    sessionCount := 12, lastUpdated := 0, confidence := JSNum.fin (8/10) }

/-- The fixture biometric sample with all three channels present. -/
def fixBio : BiometricData :=
  { sessionId := "sess_1", userId := "user_fix"
    keystrokeDynamics := some fixKd, mouseMovements := some fixMm
    deviceSensors := some fixDs, timestamp := 1700000000000 }

/-- The processor state holding only the fixture profile. -/
def fixState : ProcessorState :=
  { userProfiles := [("user_fix", fixProfile)], sessionData := [] }

/-- A high-value retail transaction (no ATM rule, no night rule at
wall-clock hour 12), used to reach an adjusted probability of 0.704. -/
def fixTxRetail : TransactionData :=
  { id := "tx_retail", userId := "user_fix", amount := 6000
    timestamp := 1700000000000, txHour := 12
    location := { lat := 40, lng := -74, country := "US", city := "New York" }
    merchant := { id := "merch_r", name := "Store", category := "retail" }
    deviceId := "device_1", paymentMethod := "credit_card" }

/-- The single-endpoint run of the C1 counterexample: noise 0.004, so the
rule sum 0.3 + 0.4 gives an adjusted probability of 0.704. -/
def c1CexRun : Except String FraudDetectionResponse × ProcessorState :=
  singleScorePOST (some fixTxRetail) (some fixBio) [] [] fixProfile 12
    { noise := 4/1000, confRand := 1/2 } 0 fixState

/-- The response the counterexample run returns. -/
def c1CexResult : FraudDetectionResponse :=
  { transactionId := "tx_retail", fraudProbability := 7/10
    riskLevel := RiskLevel.high
    explanation := [Explanation.highAmount 6000]
    biometricAnomalies := 0, graphNodes := 0, confidence := 17/20 }

/-- The single-endpoint run of the C1 witness (the counterexample inputs
with zero noise, so the adjusted probability is exactly 0.7). -/
def c1WitRun : Except String FraudDetectionResponse × ProcessorState :=
  singleScorePOST (some fixTxRetail) (some fixBio) [] [] fixProfile 12
    { noise := 0, confRand := 1/2 } 0 fixState

/-- The response of the C1 witness run. -/
def c1WitResult : FraudDetectionResponse :=
  { transactionId := "tx_retail", fraudProbability := 7/10
    riskLevel := RiskLevel.medium
    explanation := [Explanation.highAmount 6000]
    biometricAnomalies := 0, graphNodes := 0, confidence := 17/20 }

/-- A device profile with strictly positive accelerometer baseline
components, against which relative and absolute deviations differ. -/
def c8Profile : DeviceProfile :=
  { orientationPreference := JSNum.fin 100
    accelerometerBaseline := [JSNum.fin (1/10), JSNum.fin (1/10), JSNum.fin (1/10)]
    gyroscopeBaseline := [JSNum.fin 1, JSNum.fin 1, JSNum.fin 1]
    deviceStability := JSNum.fin (1/2), handedness := Handedness.right }

/-- A device sample whose accelerometer x-component deviates by 600%
relative to `c8Profile` while the absolute RMS deviation stays small. -/
def c8Ds : DeviceSensors :=
  { accelerometer := [7/10, 1/10, 1/10], gyroscope := [1, 1, 1], orientation := 100 }

/-- A device sample producing a high-severity accelerometer anomaly
against `fixDeviceProfile` (absolute RMS deviation `sqrt(4/3) ≈ 1.15`). -/
def c8WitDs : DeviceSensors :=
  { accelerometer := [2, 0, 0], gyroscope := [1, 1, 1], orientation := 100 }

/-- A device sample whose orientation differs from the stored preference,
exposing that the source does not EMA-update `orientationPreference`. -/
def c6Ds : DeviceSensors :=
  { accelerometer := [0, 0, 0], gyroscope := [1, 1, 1], orientation := 200 }

/-- A JS number that is finite and nonzero (safe as a divisor). -/
def finNonzero (x : JSNum) : Prop := ∃ q : ℚ, x = JSNum.fin q ∧ q ≠ 0

/-- A stored biometric profile whose numeric fields are finite, whose six
divisor fields are nonzero, and whose device baselines have the 3
components the update loop expects.  Every profile the source synthesizes
(`generateBaselineProfile`) satisfies this. -/
def FiniteProfile (p : BiometricProfile) : Prop :=
  finNonzero p.keystrokeProfile.avgDwellTime ∧
  finNonzero p.keystrokeProfile.avgFlightTime ∧
  finNonzero p.keystrokeProfile.preferredTypingSpeed ∧
  finNonzero p.mouseProfile.avgVelocity ∧
  finNonzero p.mouseProfile.avgAcceleration ∧
  finNonzero p.mouseProfile.preferredClickSpeed ∧
  p.deviceProfile.accelerometerBaseline.length = 3 ∧
  (∀ x ∈ p.deviceProfile.accelerometerBaseline, x.isFin = true) ∧
  p.deviceProfile.gyroscopeBaseline.length = 3 ∧
  (∀ x ∈ p.deviceProfile.gyroscopeBaseline, x.isFin = true) ∧
  p.deviceProfile.orientationPreference.isFin = true ∧
  p.confidence.isFin = true

/-- A keystroke sample with an EMPTY dwell-times array (the C10 poisoning
input). -/
def c10KdEmpty : KeystrokeDynamics :=
  { dwellTimes := [], flightTimes := [70, 70], typingSpeed := 50 }

/-- A device sample with a NON-EMPTY accelerometer array of length 1. -/
def c10DsShort : DeviceSensors :=
  { accelerometer := [5], gyroscope := [1, 1, 1], orientation := 100 }

/-- The initial `FeedbackSystem` state (constructor plus
`initializeReviewers`; the construction-time `new Date()` is taken as
epoch 0). -/
def initFSState : FSState :=
  { feedbackHistory := []
    pendingReviews := []
    modelPerformance :=
      { accuracy := 92/100, precision := 89/100, «recall» := 94/100
        f1Score := 91/100, falsePositiveRate := 8/100
        falseNegativeRate := 6/100, auc := 96/100
        lastUpdated := 0, sampleSize := 1000 }
    updateQueue := []
    reviewerWorkload := [("analyst_001", 0), ("analyst_002", 0), ("analyst_003", 0),
      ("senior_analyst_001", 0), ("ml_engineer_001", 0)] }

/-- A complete, valid feedback record for the fixture transaction. -/
def fixFeedback : FeedbackData :=
  { transactionId := "tx_6000", actualLabel := some ActualLabel.fraud
    confidence := 95/100, reviewerId := "analyst_001", reviewTimestamp := 0
    notes := none, evidenceType := EvidenceType.bank_confirmation }

/-- The fixture feedback record with the reviewer id absent. -/
def fixFeedbackNoReviewer : FeedbackData :=
  { fixFeedback with reviewerId := "" }

/-- The post-validation intermediate state of `submitFeedback`: record
stored, pending review removed, reviewer workload incremented. -/
def submitCore (fb : FeedbackData) (s : FSState) : FSState :=
  { s with
    feedbackHistory := mapSet s.feedbackHistory fb.transactionId fb
    pendingReviews := mapDelete s.pendingReviews fb.transactionId
    reviewerWorkload := mapSet s.reviewerWorkload fb.reviewerId
      (((mapGet? s.reviewerWorkload fb.reviewerId).getD 0) + 1) }

/-- One fixture feedback record per transaction id. -/
def mkFeedback (tid : String) : FeedbackData :=
  { fixFeedback with transactionId := tid }

/-- A batch of five valid feedback records. -/
def fixBatch5 : List FeedbackData :=
  [mkFeedback "t1", mkFeedback "t2", mkFeedback "t3", mkFeedback "t4",
   mkFeedback "t5"]

/-- Whether the three channel payloads of a sample are present (the
condition under which the biometric pipeline does not throw). -/
def wellFormedBio (bio : BiometricData) : Bool :=
  bio.keystrokeDynamics.isSome && bio.mouseMovements.isSome &&
    bio.deviceSensors.isSome

/-- Whether batch item `i` degrades: its biometric entry is missing (or
the array is too short), or a channel payload is absent so processing
throws. -/
def itemFails (biometrics : List (Option BiometricData)) (i : ℕ) : Bool :=
  match (biometrics.get? i).join with
  | none => true
  | some bio => !wellFormedBio bio

/-- A biometric sample whose keystroke payload is absent, so its
processing throws. -/
def c5BadBio : BiometricData := { fixBio with keystrokeDynamics := none }

/-- The transactions of the C5 witness batch. -/
def c5Txs : List TransactionData := [fixTxRetail, fixTx6000, fixTxRetail]

/-- The biometrics of the C5 witness batch: the middle entry is
malformed. -/
def c5Bios : List (Option BiometricData) := [some fixBio, some c5BadBio, some fixBio]

/-- The node-attribute consistency condition of the amended C7: any two
candidate nodes induced by transactions of the list that share an id are
the same node (same type and properties).  Without it, the
first-occurrence-wins deduplication of `buildTransactionGraph` makes the
node SET depend on the input order, as the counterexample shows. -/
def txConsistent (txs : List TransactionData) : Prop :=
  ∀ tx ∈ txs, ∀ tx' ∈ txs, ∀ n ∈ txNodes tx, ∀ n' ∈ txNodes tx',
    n.id = n'.id → n = n'

/-- A transaction naming merchant id m_dup as "Alpha"/retail. -/
def c7TxA : TransactionData :=
  { fixTxRetail with
    id := "tx_a"
    merchant := { id := "m_dup", name := "Alpha", category := "retail" } }

/-- A transaction naming the SAME merchant id m_dup as "Beta"/food. -/
def c7TxB : TransactionData :=
  { fixTxRetail with
    id := "tx_b"
    merchant := { id := "m_dup", name := "Beta", category := "food" } }

/-
Helper lemmas shared by the claim theorems below.
-/

theorem mapGet?_set_self {α : Type} (m : List (String × α)) (k : String) (v : α) :
    mapGet? (mapSet m k v) k = some v := by
  induction m with
  | nil => simp [mapSet, mapGet?]
  | cons p rest ih =>
      by_cases hp : p.1 = k
      · simp [mapSet, mapGet?, hp]
      · simp [mapSet, mapGet?, hp, ih]

theorem mapGet?_set_ne {α : Type} (m : List (String × α)) (k k' : String) (v : α)
    (h : k' ≠ k) : mapGet? (mapSet m k v) k' = mapGet? m k' := by
  induction m with
  | nil => simp [mapSet, mapGet?, Ne.symm h]
  | cons p rest ih =>
      by_cases hp : p.1 = k
      · have hp' : p.1 ≠ k' := by rw [hp]; exact Ne.symm h
        simp [mapSet, mapGet?, hp, hp', Ne.symm h]
      · by_cases hq : p.1 = k'
        · simp [mapSet, mapGet?, hp, hq, h]
        · simp [mapSet, mapGet?, hp, hq, ih]

theorem mapGet?_delete_self {α : Type} (m : List (String × α)) (k : String) :
    mapGet? (mapDelete m k) k = none := by
  induction m with
  | nil => simp [mapDelete, mapGet?]
  | cons p rest ih =>
      by_cases hp : p.1 = k
      · simpa [mapDelete, hp] using ih
      · simpa [mapDelete, mapGet?, hp] using ih

theorem mapGet?_delete_ne {α : Type} (m : List (String × α)) (k k' : String)
    (h : k' ≠ k) : mapGet? (mapDelete m k) k' = mapGet? m k' := by
  induction m with
  | nil => simp [mapDelete, mapGet?]
  | cons p rest ih =>
      by_cases hp : p.1 = k
      · have hp' : p.1 ≠ k' := by rw [hp]; exact Ne.symm h
        have hd : mapDelete (p :: rest) k = mapDelete rest k := by
          simp [mapDelete, hp]
        rw [hd, ih]
        simp [mapGet?, hp']
      · have hd : mapDelete (p :: rest) k = p :: mapDelete rest k := by
          simp [mapDelete, hp]
        rw [hd]
        by_cases hq : p.1 = k'
        · simp [mapGet?, hq]
        · simp [mapGet?, hq, ih]

theorem adjustedProbability_nonneg (base : ℚ) (anomalies : List BiometricAnomaly)
    (h : 0 ≤ base) : 0 ≤ adjustedProbability base anomalies := by
  unfold adjustedProbability
  have h2 : (0 : ℚ) ≤ (countSeverity anomalies Severity.high : ℚ) * (2/10) := by positivity
  have h3 : (0 : ℚ) ≤ (countSeverity anomalies Severity.medium : ℚ) * (1/10) := by positivity
  have : (0 : ℚ) ≤ base + (countSeverity anomalies Severity.high : ℚ) * (2/10)
      + (countSeverity anomalies Severity.medium : ℚ) * (1/10) := by linarith
  exact le_min (by norm_num) this

theorem adjustedProbability_le_one (base : ℚ) (anomalies : List BiometricAnomaly) :
    adjustedProbability base anomalies ≤ 1 := min_le_left _ _

theorem bandOf_high_iff (p : ℚ) : bandOf p = RiskLevel.high ↔ p > 7/10 := by
  unfold bandOf
  split_ifs with h1 h2 <;> simp_all

theorem bandOf_medium_iff (p : ℚ) :
    bandOf p = RiskLevel.medium ↔ (4/10 < p ∧ p ≤ 7/10) := by
  unfold bandOf
  split_ifs with h1 h2 <;> constructor <;> intro h <;> simp_all <;> linarith

theorem bandOf_low_iff (p : ℚ) : bandOf p = RiskLevel.low ↔ p ≤ 4/10 := by
  unfold bandOf
  split_ifs with h1 h2 <;> constructor <;> intro h <;> simp_all <;> linarith

theorem jsRound2_nonneg (q : ℚ) (h : 0 ≤ q) : 0 ≤ jsRound2 q := by
  unfold jsRound2
  have : (0 : ℤ) ≤ Int.floor (q * 100 + 1/2) := by
    apply Int.le_floor.mpr
    push_cast
    linarith
  positivity

theorem jsRound2_le_one (q : ℚ) (h : q ≤ 1) : jsRound2 q ≤ 1 := by
  unfold jsRound2
  have : Int.floor (q * 100 + 1/2) ≤ 100 := by
    have h101 : Int.floor (q * 100 + 1/2) < 101 := by
      apply Int.floor_lt.mpr
      push_cast
      linarith
    omega
  rw [div_le_one (by norm_num)]
  exact_mod_cast this

theorem jsRound2_close (q : ℚ) : |jsRound2 q - q| ≤ 1/200 := by
  unfold jsRound2
  have h1 : (Int.floor (q * 100 + 1/2) : ℚ) ≤ q * 100 + 1/2 := Int.floor_le _
  have h2 : q * 100 + 1/2 - 1 < (Int.floor (q * 100 + 1/2) : ℚ) := Int.sub_one_lt_floor _
  rw [abs_le]
  constructor <;> [linarith; linarith]

/-- C4, counterexample.  The claim keys the night rule and the
unusual-time explanation on the TRANSACTION hour; the source reads the
wall clock at scoring time (`new Date().getHours()` in `computeFraudScore`
and `generateExplanation`).  Scoring `fixTx6000` (transaction hour 2) at
wall-clock hour 12 yields base score 1 (no night bonus, against the
claimed 1.2) and an explanation with no unusual-time entry. -/
theorem c4_counterexample :
    fixTx6000.txHour = 2 ∧ fixTx6000.amount = 6000 ∧
    fixTx6000.merchant.category = "atm" ∧
    computeFraudScore [] fixTx6000 12 0 = 1 ∧
    claimBaseScore fixTx6000 0 = 12/10 ∧
    (predictFraudCore fixTx6000 fixKd fixMm fixDs [] 12 0 (1/2)).explanation =
      [Explanation.highAmount 6000, Explanation.largeAtmWithdrawal 6000] := by
  refine ⟨rfl, rfl, rfl, ?_, ?_, ?_⟩
  · norm_num [computeFraudScore, fixTx6000]
  · norm_num [claimBaseScore, fixTx6000]
  · norm_num [predictFraudCore, generateExplanation, computeFraudScore, fixTx6000,
      fixKd]
    simp

/-- C4, amended: the base fraud score is the rule sum
(+0.3 amount > 1000, +0.4 amount > 5000, +0.2 night, +0.3 ATM and
amount > 500, plus the noise draw), where the night rule is keyed on the
SCORING-TIME wall-clock hour rather than the transaction hour, and the
clipping to [0,1] happens in `predictFraud`; the scenario (amount 6000,
ATM, scored at hour 2, any sample and any nonnegative noise) yields risk
level high with a high-amount entry and an unusual-time entry in the
explanation. -/
theorem c4_base_score_rules :
    (∀ (features : List JSNum) (tx : TransactionData) (clockHour : ℕ) (noise : ℚ),
      computeFraudScore features tx clockHour noise =
        (if tx.amount > 1000 then (3 : ℚ)/10 else 0) +
        (if tx.amount > 5000 then (4 : ℚ)/10 else 0) +
        (if clockHour < 6 ∨ clockHour > 22 then (2 : ℚ)/10 else 0) +
        (if tx.merchant.category = "atm" ∧ tx.amount > 500 then (3 : ℚ)/10 else 0) +
        noise) ∧
    (∀ (tx : TransactionData) (kd : KeystrokeDynamics) (mm : MouseMovements)
      (ds : DeviceSensors) (embeddings : List GNNEmbedding) (noise confRand : ℚ),
      0 ≤ noise → tx.amount = 6000 → tx.merchant.category = "atm" →
      (predictFraudCore tx kd mm ds embeddings 2 noise confRand).riskLevel =
        RiskLevel.high ∧
      Explanation.highAmount tx.amount ∈
        (predictFraudCore tx kd mm ds embeddings 2 noise confRand).explanation ∧
      Explanation.unusualTime 2 ∈
        (predictFraudCore tx kd mm ds embeddings 2 noise confRand).explanation) := by
  constructor
  · intro features tx clockHour noise
    unfold computeFraudScore
    split_ifs <;> ring
  · intro tx kd mm ds embeddings noise confRand hnoise hamount hcat
    have hprob : ∀ fs : List JSNum, max 0 (min 1 (computeFraudScore fs tx 2 noise)) = 1 := by
      intro fs
      have : computeFraudScore fs tx 2 noise = 12/10 + noise := by
        unfold computeFraudScore
        rw [hamount, hcat]
        norm_num
      rw [this]
      have h1 : min 1 (12/10 + noise) = 1 := min_eq_left (by linarith)
      rw [h1]
      exact max_eq_right (by norm_num)
    have hexp : generateExplanation tx kd 1 2 =
        [Explanation.highAmount tx.amount, Explanation.unusualTime 2,
         Explanation.largeAtmWithdrawal tx.amount] ∨
        generateExplanation tx kd 1 2 =
        [Explanation.highAmount tx.amount, Explanation.unusualTime 2,
         Explanation.largeAtmWithdrawal tx.amount, Explanation.unusualTypingPattern] := by
      unfold generateExplanation
      rw [hamount, hcat]
      by_cases hts : kd.typingSpeed < 30
      · right
        norm_num [hts]
        simp
      · left
        norm_num [hts]
        simp
    unfold predictFraudCore
    simp only [hprob]
    refine ⟨by norm_num [bandOf], ?_, ?_⟩ <;>
      rcases hexp with h | h <;> simp [h]

/-- C4, witness for `c4_base_score_rules` at the concrete fixture
transaction, sample and noise 1/10. -/
theorem c4_witness :
    (predictFraudCore fixTx6000 fixKd fixMm fixDs [] 2 (1/10) (1/2)).riskLevel =
      RiskLevel.high ∧
    Explanation.unusualTime 2 ∈
      (predictFraudCore fixTx6000 fixKd fixMm fixDs [] 2 (1/10) (1/2)).explanation := by
  have h := c4_base_score_rules.2 fixTx6000 fixKd fixMm fixDs [] (1/10) (1/2)
    (by norm_num) (by norm_num [fixTx6000]) (by norm_num [fixTx6000])
  exact ⟨h.1, h.2.2⟩

theorem predictFraud_prob_bounds (tx : TransactionData) (bio : BiometricData)
    (embeddings : List GNNEmbedding) (clockHour : ℕ) (noise confRand : ℚ)
    (pred : FraudPrediction)
    (h : predictFraud tx bio embeddings clockHour noise confRand = Except.ok pred) :
    0 ≤ pred.fraudProbability ∧ pred.fraudProbability ≤ 1 := by
  unfold predictFraud at h
  rcases hk : bio.keystrokeDynamics with _ | kd
  · rw [hk] at h
    simp at h
  rcases hm : bio.mouseMovements with _ | mm
  · rw [hk, hm] at h
    simp at h
  rcases hd : bio.deviceSensors with _ | ds
  · rw [hk, hm, hd] at h
    simp at h
  rw [hk, hm, hd] at h
  simp only [Except.ok.injEq] at h
  rw [← h]
  unfold predictFraudCore
  constructor
  · exact le_max_left 0 _
  · exact max_le (by norm_num) (min_le_left 1 _)

/-- Evaluation lemma: the fixture keystroke sample matches its profile,
producing no anomalies. -/
theorem fixAnalyzeKeystroke :
    analyzeKeystrokeDynamics fixKd fixKeystrokeProfile = [] := by
  norm_num [analyzeKeystrokeDynamics, fixKd, fixKeystrokeProfile, jsAvg,
    JSNum.div, JSNum.sub, JSNum.add, JSNum.neg, JSNum.abs, JSNum.gt, JSNum.lt]

/-- Evaluation lemma: the fixture mouse sample matches its profile. -/
theorem fixAnalyzeMouse : analyzeMouseMovements fixMm fixMouseProfile = [] := by
  norm_num [analyzeMouseMovements, fixMm, fixMouseProfile, jsAvg, JSNum.div,
    JSNum.sub, JSNum.add, JSNum.neg, JSNum.abs, JSNum.gt, JSNum.lt, JSNum.mul,
    classifyMovementPattern, calculateVariance, jsSum]

/-- Evaluation lemma: the fixture device sample matches its profile. -/
theorem fixAnalyzeDevice : analyzeDeviceSensors fixDs fixDeviceProfile = [] := by
  norm_num [analyzeDeviceSensors, fixDs, fixDeviceProfile, jsAvg, JSNum.div,
    JSNum.sub, JSNum.add, JSNum.neg, JSNum.abs, JSNum.gt, JSNum.lt, JSNum.mul,
    calculateVectorDeviationSq, jsSum, JSNum.getElem?, JSNum.ofOpt, List.range_succ]

/-- Evaluation lemma: processing the fixture sample in the fixture state
succeeds with no anomalies. -/
theorem fixProcess :
    (processBiometricData fixBio fixProfile 0 fixState).1 = Except.ok [] := by
  have hl : mapGet? fixState.userProfiles "user_fix" = some fixProfile := by
    simp [fixState, mapGet?]
  simp only [processBiometricData, fixBio, hl, Option.getD_some, fixProfile]
  simp [fixAnalyzeKeystroke, fixAnalyzeMouse, fixAnalyzeDevice]

/-- C1, counterexample.  The route computes the risk level from the
UNROUNDED adjusted probability and only then rounds the returned
probability to two decimals, so at adjusted probability 0.704 it returns
`fraudProbability = 0.7` (which does not exceed 0.7) together with
`riskLevel = high` — contradicting the claim that the returned risk level
is high exactly when the RETURNED probability exceeds 0.7 (the claim
would require medium here). -/
theorem c1_counterexample :
    c1CexRun.1 = Except.ok c1CexResult ∧
    c1CexResult.riskLevel = RiskLevel.high ∧
    ¬ (7/10 : ℚ) < c1CexResult.fraudProbability := by
  refine ⟨?_, rfl, by norm_num [c1CexResult]⟩
  have hscore : ∀ fs : List JSNum,
      computeFraudScore fs fixTxRetail 12 (4/1000) = 704/1000 := by
    intro fs
    norm_num [computeFraudScore, fixTxRetail]
    rw [if_neg (by decide)]
    norm_num
  have hpred : predictFraud fixTxRetail fixBio [] 12 (4/1000) (1/2) =
      Except.ok
        { transactionId := "tx_retail", fraudProbability := 704/1000
          riskLevel := RiskLevel.high
          explanation := [Explanation.highAmount 6000], confidence := 17/20 } := by
    simp only [predictFraud, fixBio]
    simp only [predictFraudCore, hscore]
    norm_num [generateExplanation, fixTxRetail, fixKd]
    simp
  simp only [c1CexRun, singleScorePOST, fixProcess]
  simp only [hpred]
  norm_num [adjustedProbability, countSeverity, bandOf, jsRound2,
    buildTransactionGraph, c1CexResult, fixTxRetail]

/-- C1, amended: every verdict returned by the single-transaction route
has `fraudProbability ∈ [0, 1]`, and the risk level matches the 0.7 / 0.4
bands exactly with respect to the UNROUNDED adjusted probability; the
returned `fraudProbability` is that adjusted probability rounded to two
decimals (so it sits within 1/200 of the value the bands are computed
from, and the bands on the returned value itself can be off at a band
boundary, as the counterexample shows). -/
theorem c1_probability_bands (tx : TransactionData) (bio : BiometricData)
    (recent : List TransactionData) (embeddings : List GNNEmbedding)
    (fresh : BiometricProfile) (clockHour : ℕ) (rand : ScoreRand) (now : ℤ)
    (s : ProcessorState) (r : FraudDetectionResponse) (s' : ProcessorState)
    (h : singleScorePOST (some tx) (some bio) recent embeddings fresh clockHour
      rand now s = (Except.ok r, s')) :
    0 ≤ r.fraudProbability ∧ r.fraudProbability ≤ 1 ∧
    ∃ adjusted : ℚ, 0 ≤ adjusted ∧ adjusted ≤ 1 ∧
      r.fraudProbability = jsRound2 adjusted ∧
      |r.fraudProbability - adjusted| ≤ 1/200 ∧
      (r.riskLevel = RiskLevel.high ↔ adjusted > 7/10) ∧
      (r.riskLevel = RiskLevel.medium ↔ (4/10 < adjusted ∧ adjusted ≤ 7/10)) ∧
      (r.riskLevel = RiskLevel.low ↔ adjusted ≤ 4/10) := by
  dsimp only [singleScorePOST] at h
  rcases hpb : (processBiometricData bio fresh now s).1 with e | anomalies
  · rw [hpb] at h
    simp at h
  rw [hpb] at h
  rcases hpf : predictFraud tx bio embeddings clockHour rand.noise rand.confRand
    with e | pred
  · rw [hpf] at h
    simp at h
  rw [hpf] at h
  simp only [Prod.mk.injEq, Except.ok.injEq] at h
  obtain ⟨hr, _⟩ := h
  obtain ⟨hb0, hb1⟩ := predictFraud_prob_bounds tx bio embeddings clockHour
    rand.noise rand.confRand pred hpf
  refine ?_
  rw [← hr]
  have ha0 : 0 ≤ adjustedProbability pred.fraudProbability anomalies :=
    adjustedProbability_nonneg _ _ hb0
  have ha1 : adjustedProbability pred.fraudProbability anomalies ≤ 1 :=
    adjustedProbability_le_one _ _
  refine ⟨jsRound2_nonneg _ ha0, jsRound2_le_one _ ha1,
    adjustedProbability pred.fraudProbability anomalies, ha0, ha1, rfl,
    jsRound2_close _, bandOf_high_iff _, bandOf_medium_iff _, bandOf_low_iff _⟩

/-- C1, witness: `c1_probability_bands` applied at a concrete successful
run. -/
theorem c1_witness :
    0 ≤ c1WitResult.fraudProbability ∧ c1WitResult.fraudProbability ≤ 1 ∧
    ∃ adjusted : ℚ, 0 ≤ adjusted ∧ adjusted ≤ 1 ∧
      c1WitResult.fraudProbability = jsRound2 adjusted ∧
      |c1WitResult.fraudProbability - adjusted| ≤ 1/200 ∧
      (c1WitResult.riskLevel = RiskLevel.high ↔ adjusted > 7/10) ∧
      (c1WitResult.riskLevel = RiskLevel.medium ↔ (4/10 < adjusted ∧ adjusted ≤ 7/10)) ∧
      (c1WitResult.riskLevel = RiskLevel.low ↔ adjusted ≤ 4/10) := by
  apply c1_probability_bands fixTxRetail fixBio [] [] fixProfile 12
    { noise := 0, confRand := 1/2 } 0 fixState c1WitResult c1WitRun.2
  have h1 : c1WitRun.1 = Except.ok c1WitResult := by
    have hscore : ∀ fs : List JSNum,
        computeFraudScore fs fixTxRetail 12 0 = 7/10 := by
      intro fs
      norm_num [computeFraudScore, fixTxRetail]
      decide
    have hpred : predictFraud fixTxRetail fixBio [] 12 0 (1/2) =
        Except.ok
          { transactionId := "tx_retail", fraudProbability := 7/10
            riskLevel := RiskLevel.medium
            explanation := [Explanation.highAmount 6000], confidence := 17/20 } := by
      simp only [predictFraud, fixBio]
      simp only [predictFraudCore, hscore]
      norm_num [generateExplanation, fixTxRetail, fixKd, bandOf]
      simp
    simp only [c1WitRun, singleScorePOST, fixProcess]
    simp only [hpred]
    norm_num [adjustedProbability, countSeverity, bandOf, jsRound2,
      buildTransactionGraph, c1WitResult, fixTxRetail]
  calc singleScorePOST (some fixTxRetail) (some fixBio) [] [] fixProfile 12
        { noise := 0, confRand := 1/2 } 0 fixState = c1WitRun := rfl
    _ = (Except.ok c1WitResult, c1WitRun.2) := Prod.ext h1 rfl

/-- C8, counterexample.  The source computes the accelerometer deviation
as an ABSOLUTE RMS `sqrt(mean (observed_i − baseline_i)²)` — there is no
division by the baseline.  On `c8Ds` against `c8Profile` the relative RMS
deviation of the claim is `sqrt 12 ≈ 3.46`, far above both the 0.5 anomaly
threshold and the 0.8 high-severity threshold, yet the source flags no
anomaly at all (its absolute RMS is `sqrt 0.12 ≈ 0.35`). -/
theorem c8_counterexample :
    analyzeDeviceSensors c8Ds c8Profile = [] ∧
    relVectorDeviationSq c8Ds.accelerometer [1/10, 1/10, 1/10] = 12 ∧
    ((1/2 : ℚ))^2 < 12 ∧ ((4/5 : ℚ))^2 < 12 := by
  refine ⟨?_, ?_, by norm_num, by norm_num⟩
  · norm_num [analyzeDeviceSensors, c8Ds, c8Profile, calculateVectorDeviationSq,
      jsSum, JSNum.div, JSNum.sub, JSNum.add, JSNum.neg, JSNum.abs, JSNum.gt,
      JSNum.lt, JSNum.mul, JSNum.getElem?, JSNum.ofOpt, List.range_succ]
  · norm_num [relVectorDeviationSq, c8Ds]

/-- C8, amended: for the device-sensor channel, the accelerometer and
gyroscope deviations are ABSOLUTE RMS deviations over the vector
components, `sqrt(Σ (observed_i − baseline_i)² / n)` (no baseline
normalization), flagged as an anomaly when the RMS exceeds 0.5 (squared
threshold 1/4) with severity high when it exceeds 0.8 (squared threshold
16/25); the orientation deviation is the plain (non-circular) difference
`|orientation − preference| / 360`, flagged as a low-severity anomaly when
it exceeds 0.3. -/
theorem c8_device_thresholds (ds : DeviceSensors) (dp : DeviceProfile) :
    ((∃ a ∈ analyzeDeviceSensors ds dp,
        a.description = AnomalyDesc.deviceMovementAccelerometer) ↔
      JSNum.gt (calculateVectorDeviationSq ds.accelerometer dp.accelerometerBaseline)
        (JSNum.fin ((1/2)^2)) = true) ∧
    (∀ a ∈ analyzeDeviceSensors ds dp,
      a.description = AnomalyDesc.deviceMovementAccelerometer →
      (a.severity = Severity.high ↔
        JSNum.gt (calculateVectorDeviationSq ds.accelerometer dp.accelerometerBaseline)
          (JSNum.fin ((4/5)^2)) = true)) ∧
    ((∃ a ∈ analyzeDeviceSensors ds dp,
        a.description = AnomalyDesc.deviceRotationGyroscope) ↔
      JSNum.gt (calculateVectorDeviationSq ds.gyroscope dp.gyroscopeBaseline)
        (JSNum.fin ((1/2)^2)) = true) ∧
    (∀ a ∈ analyzeDeviceSensors ds dp,
      a.description = AnomalyDesc.deviceRotationGyroscope →
      (a.severity = Severity.high ↔
        JSNum.gt (calculateVectorDeviationSq ds.gyroscope dp.gyroscopeBaseline)
          (JSNum.fin ((4/5)^2)) = true)) ∧
    ((∃ a ∈ analyzeDeviceSensors ds dp,
        a.description = AnomalyDesc.orientationDiffers) ↔
      JSNum.gt (JSNum.div (JSNum.abs (JSNum.sub (JSNum.fin ds.orientation)
        dp.orientationPreference)) (JSNum.fin 360)) (JSNum.fin (3/10)) = true) ∧
    (∀ a ∈ analyzeDeviceSensors ds dp,
      a.description = AnomalyDesc.orientationDiffers →
      a.severity = Severity.low) := by
  have h14 : ((1 : ℚ)/2)^2 = 1/4 := by norm_num
  have h45 : ((4 : ℚ)/5)^2 = 16/25 := by norm_num
  rw [h14, h45]
  unfold analyzeDeviceSensors
  by_cases h1 : JSNum.gt (calculateVectorDeviationSq ds.accelerometer
      dp.accelerometerBaseline) (JSNum.fin (1/4)) = true <;>
    by_cases h2 : JSNum.gt (calculateVectorDeviationSq ds.gyroscope
      dp.gyroscopeBaseline) (JSNum.fin (1/4)) = true <;>
    by_cases h3 : JSNum.gt (JSNum.div (JSNum.abs (JSNum.sub (JSNum.fin ds.orientation)
      dp.orientationPreference)) (JSNum.fin 360)) (JSNum.fin (3/10)) = true <;>
    simp only [h1, h2, h3, if_true, if_false, Bool.false_eq_true, if_neg,
      List.append_nil, List.nil_append, List.append_assoc] <;>
    simp_all

/-- C8, witness: `c8_device_thresholds` applied at a concrete sample with
a high-severity accelerometer anomaly and no gyroscope or orientation
anomaly. -/
theorem c8_witness :
    (∃ a ∈ analyzeDeviceSensors c8WitDs fixDeviceProfile,
      a.description = AnomalyDesc.deviceMovementAccelerometer) ∧
    ∀ a ∈ analyzeDeviceSensors c8WitDs fixDeviceProfile,
      a.description = AnomalyDesc.deviceMovementAccelerometer →
      a.severity = Severity.high := by
  have h := c8_device_thresholds c8WitDs fixDeviceProfile
  have hsq : calculateVectorDeviationSq c8WitDs.accelerometer
      fixDeviceProfile.accelerometerBaseline = JSNum.fin (4/3) := by
    norm_num [calculateVectorDeviationSq, c8WitDs, fixDeviceProfile, jsSum,
      JSNum.sub, JSNum.add, JSNum.neg, JSNum.mul, JSNum.div, JSNum.getElem?,
      JSNum.ofOpt, List.range_succ]
  refine ⟨h.1.mpr ?_, fun a ha hd => (h.2.1 a ha hd).mpr ?_⟩
  · rw [hsq]
    norm_num [JSNum.gt, JSNum.lt]
  · rw [hsq]
    norm_num [JSNum.gt, JSNum.lt]

/-- C6, counterexample.  `updateUserProfile` does not apply the EMA to
every numeric baseline field: `orientationPreference` (like
`preferredClickSpeed`, the variances and `deviceStability`) is left
unchanged even though the sample supplies an orientation.  With stored
preference 100 and sample orientation 200 the claimed EMA value is 110,
but the stored profile still holds 100 after the update. -/
theorem c6_counterexample :
    (updateUserProfile fixKd fixMm c6Ds 0 fixProfile).deviceProfile.orientationPreference
      = JSNum.fin 100 ∧
    emaBlend (JSNum.fin 100) (JSNum.fin 200) = JSNum.fin 110 ∧
    (JSNum.fin 100 : JSNum) ≠ JSNum.fin 110 := by
  refine ⟨?_, ?_, by simp⟩
  · simp [updateUserProfile, fixProfile, fixDeviceProfile]
  · norm_num [emaBlend, emaAlpha, JSNum.mul, JSNum.add]

/-- C6, amended: for every processed biometric sample (all three channels
present) against a stored profile, the returned anomalies are computed
against the PRE-update profile; only afterwards is the stored profile
replaced by one in which exactly avgDwellTime, avgFlightTime,
preferredTypingSpeed, avgVelocity, avgAcceleration and the two
3-component device baselines are EMA-blended with fixed learning rate
alpha = 0.1, sessionCount is incremented by exactly 1, and confidence is
raised by 0.01 capped at the 0.95 ceiling; all other profile fields are
unchanged. -/
theorem c6_ema_update (data : BiometricData) (kd : KeystrokeDynamics)
    (mm : MouseMovements) (ds : DeviceSensors) (fresh p : BiometricProfile)
    (now : ℤ) (s : ProcessorState)
    (hk : data.keystrokeDynamics = some kd)
    (hm : data.mouseMovements = some mm)
    (hd : data.deviceSensors = some ds)
    (hp : mapGet? s.userProfiles data.userId = some p) :
    (processBiometricData data fresh now s).1 =
      Except.ok (analyzeKeystrokeDynamics kd p.keystrokeProfile ++
        analyzeMouseMovements mm p.mouseProfile ++
        analyzeDeviceSensors ds p.deviceProfile) ∧
    mapGet? (processBiometricData data fresh now s).2.userProfiles data.userId =
      some (updateUserProfile kd mm ds now p) ∧
    emaAlpha = 1/10 ∧
    (∀ old sample : JSNum, emaBlend old sample =
      JSNum.add (JSNum.mul (JSNum.fin (9/10)) old)
        (JSNum.mul (JSNum.fin (1/10)) sample)) ∧
    (updateUserProfile kd mm ds now p).keystrokeProfile.avgDwellTime =
      emaBlend p.keystrokeProfile.avgDwellTime (jsAvg kd.dwellTimes) ∧
    (updateUserProfile kd mm ds now p).keystrokeProfile.avgFlightTime =
      emaBlend p.keystrokeProfile.avgFlightTime (jsAvg kd.flightTimes) ∧
    (updateUserProfile kd mm ds now p).keystrokeProfile.preferredTypingSpeed =
      emaBlend p.keystrokeProfile.preferredTypingSpeed (JSNum.fin kd.typingSpeed) ∧
    (updateUserProfile kd mm ds now p).mouseProfile.avgVelocity =
      emaBlend p.mouseProfile.avgVelocity (jsAvg mm.velocity) ∧
    (updateUserProfile kd mm ds now p).mouseProfile.avgAcceleration =
      emaBlend p.mouseProfile.avgAcceleration (jsAvg mm.acceleration) ∧
    (updateUserProfile kd mm ds now p).deviceProfile.accelerometerBaseline =
      emaVec3 p.deviceProfile.accelerometerBaseline ds.accelerometer ∧
    (updateUserProfile kd mm ds now p).deviceProfile.gyroscopeBaseline =
      emaVec3 p.deviceProfile.gyroscopeBaseline ds.gyroscope ∧
    (updateUserProfile kd mm ds now p).sessionCount = p.sessionCount + 1 ∧
    (updateUserProfile kd mm ds now p).confidence =
      JSNum.jsMin (JSNum.fin (95/100)) (JSNum.add p.confidence (JSNum.fin (1/100))) ∧
    (updateUserProfile kd mm ds now p).keystrokeProfile.dwellTimeVariance =
      p.keystrokeProfile.dwellTimeVariance ∧
    (updateUserProfile kd mm ds now p).keystrokeProfile.flightTimeVariance =
      p.keystrokeProfile.flightTimeVariance ∧
    (updateUserProfile kd mm ds now p).keystrokeProfile.typingRhythm =
      p.keystrokeProfile.typingRhythm ∧
    (updateUserProfile kd mm ds now p).keystrokeProfile.keyPressurePattern =
      p.keystrokeProfile.keyPressurePattern ∧
    (updateUserProfile kd mm ds now p).mouseProfile.clickRhythm =
      p.mouseProfile.clickRhythm ∧
    (updateUserProfile kd mm ds now p).mouseProfile.movementPattern =
      p.mouseProfile.movementPattern ∧
    (updateUserProfile kd mm ds now p).mouseProfile.preferredClickSpeed =
      p.mouseProfile.preferredClickSpeed ∧
    (updateUserProfile kd mm ds now p).mouseProfile.scrollBehavior =
      p.mouseProfile.scrollBehavior ∧
    (updateUserProfile kd mm ds now p).deviceProfile.orientationPreference =
      p.deviceProfile.orientationPreference ∧
    (updateUserProfile kd mm ds now p).deviceProfile.deviceStability =
      p.deviceProfile.deviceStability ∧
    (updateUserProfile kd mm ds now p).deviceProfile.handedness =
      p.deviceProfile.handedness := by
  have hmain : (processBiometricData data fresh now s).1 =
      Except.ok (analyzeKeystrokeDynamics kd p.keystrokeProfile ++
        analyzeMouseMovements mm p.mouseProfile ++
        analyzeDeviceSensors ds p.deviceProfile) ∧
      mapGet? (processBiometricData data fresh now s).2.userProfiles data.userId =
        some (updateUserProfile kd mm ds now p) := by
    unfold processBiometricData
    rw [hk, hm, hd, hp]
    exact ⟨rfl, mapGet?_set_self _ _ _⟩
  refine ⟨hmain.1, hmain.2, rfl, ?_, rfl, rfl, rfl, rfl, rfl, rfl, rfl, rfl, rfl,
    rfl, rfl, rfl, rfl, rfl, rfl, rfl, rfl, rfl, rfl, rfl⟩
  intro old sample
  unfold emaBlend emaAlpha
  norm_num

/-- C6, witness: `c6_ema_update` applied at the fixture sample and state
(two projected conclusions shown). -/
theorem c6_witness :
    (processBiometricData fixBio fixProfile 0 fixState).1 = Except.ok
      (analyzeKeystrokeDynamics fixKd fixProfile.keystrokeProfile ++
        analyzeMouseMovements fixMm fixProfile.mouseProfile ++
        analyzeDeviceSensors fixDs fixProfile.deviceProfile) ∧
    (updateUserProfile fixKd fixMm fixDs 0 fixProfile).sessionCount =
      fixProfile.sessionCount + 1 := by
  have h := c6_ema_update fixBio fixKd fixMm fixDs fixProfile fixProfile 0 fixState
    rfl rfl rfl (by simp [fixState, fixBio, mapGet?])
  exact ⟨h.1, h.2.2.2.2.2.2.2.2.2.2.2.1⟩

theorem jsAvg_fin (xs : List ℚ) (h : xs ≠ []) :
    jsAvg xs = JSNum.fin (xs.sum / xs.length) := by
  have hl : (xs.length : ℚ) ≠ 0 := by
    have := List.length_pos.mpr h
    positivity
  simp [jsAvg, JSNum.div, hl]

theorem jsSum_fin_aux (l : List JSNum) :
    ∀ q : ℚ, (∀ x ∈ l, x.isFin = true) →
    ∃ r : ℚ, l.foldl JSNum.add (JSNum.fin q) = JSNum.fin r := by
  induction l with
  | nil => exact fun q _ => ⟨q, rfl⟩
  | cons x rest ih =>
      intro q h
      obtain ⟨qx, rfl⟩ : ∃ qx, x = JSNum.fin qx := by
        have hx := h x (by simp)
        cases x <;> simp_all [JSNum.isFin]
      simpa [JSNum.add] using ih (q + qx) (fun y hy => h y (by simp [hy]))

theorem jsSum_fin (l : List JSNum) (h : ∀ x ∈ l, x.isFin = true) :
    ∃ q : ℚ, jsSum l = JSNum.fin q := jsSum_fin_aux l 0 h

theorem relDeviation_fin (a : ℚ) (b : ℚ) (hb : b ≠ 0) :
    JSNum.div (JSNum.abs (JSNum.sub (JSNum.fin a) (JSNum.fin b))) (JSNum.fin b)
      = JSNum.fin (|a - b| / b) := by
  simp [JSNum.sub, JSNum.add, JSNum.neg, JSNum.abs, JSNum.div, hb]
  ring_nf

theorem emaBlend_fin (a b : ℚ) :
    emaBlend (JSNum.fin a) (JSNum.fin b) = JSNum.fin ((1 - emaAlpha) * a + emaAlpha * b) :=
  rfl

theorem calculateVectorDeviationSq_fin (cur : List ℚ) (base : List JSNum)
    (hc : cur.length = 3) (hbl : base.length = 3)
    (hbf : ∀ x ∈ base, x.isFin = true) :
    ∃ q : ℚ, calculateVectorDeviationSq cur base = JSNum.fin q := by
  unfold calculateVectorDeviationSq
  rw [hc, hbl]
  simp only [ne_eq, not_true_eq_false, if_false, reduceIte]
  have hterms : ∀ x ∈ (List.range 3).map (fun idx =>
      let diff := JSNum.sub (JSNum.ofOpt (cur.get? idx)) (JSNum.getElem? base idx)
      JSNum.mul diff diff), x.isFin = true := by
    intro x hx
    simp only [List.mem_map, List.mem_range] at hx
    obtain ⟨i, hi, rfl⟩ := hx
    rcases hcc : cur.get? i with _ | c
    · exfalso
      have := List.get?_eq_none.mp hcc
      omega
    rcases hbb : base.get? i with _ | b
    · exfalso
      have := List.get?_eq_none.mp hbb
      omega
    obtain ⟨qb, rfl⟩ : ∃ qb, b = JSNum.fin qb := by
      have := hbf b (List.get?_mem hbb)
      cases b <;> simp_all [JSNum.isFin]
    rw [List.get?_eq_getElem?] at hcc hbb
    simp [hcc, hbb, JSNum.ofOpt, JSNum.getElem?, JSNum.sub, JSNum.add, JSNum.neg,
      JSNum.mul, JSNum.isFin]
  obtain ⟨q, hq⟩ := jsSum_fin _ hterms
  rw [hq]
  exact ⟨q / 3, by norm_num [JSNum.div]⟩

theorem emaVec3_fin (base : List JSNum) (sample : List ℚ)
    (hbl : base.length = 3) (hsl : sample.length = 3)
    (hbf : ∀ x ∈ base, x.isFin = true) :
    ∀ x ∈ emaVec3 base sample, x.isFin = true := by
  intro x hx
  unfold emaVec3 at hx
  have hdrop : base.drop 3 = [] := by
    rw [← hbl]
    exact List.drop_length base
  rw [hdrop, List.append_nil] at hx
  simp only [List.mem_map, List.mem_range] at hx
  obtain ⟨i, hi, rfl⟩ := hx
  rcases hcc : sample.get? i with _ | c
  · exfalso
    have := List.get?_eq_none.mp hcc
    omega
  rcases hbb : base.get? i with _ | b
  · exfalso
    have := List.get?_eq_none.mp hbb
    omega
  obtain ⟨qb, rfl⟩ : ∃ qb, b = JSNum.fin qb := by
    have := hbf b (List.get?_mem hbb)
    cases b <;> simp_all [JSNum.isFin]
  rw [List.get?_eq_getElem?] at hcc hbb
  simp [hcc, hbb, JSNum.ofOpt, JSNum.getElem?, emaBlend, JSNum.add, JSNum.mul,
    JSNum.isFin]

theorem jsMin_fin (a b : ℚ) :
    (JSNum.jsMin (JSNum.fin a) (JSNum.fin b)).isFin = true := by
  unfold JSNum.jsMin
  split_ifs with h1 h2 <;> simp_all [JSNum.isFin]

/-- C10, amended: the biometric processor divides by the lengths of
dwellTimes, flightTimes, velocity, acceleration and clickPatterns with no
emptiness guard, and additionally indexes the device arrays at the fixed
positions 0..2.  For every sample in which those five arrays are non-empty
AND the accelerometer and gyroscope arrays have exactly the 3 components
the stored baselines have, against a stored profile whose numeric fields
are finite with nonzero divisor fields, every session aggregate, every
deviation score and every EMA-updated profile field is a finite (non-NaN)
number.  The non-emptiness precondition is required: with an empty
dwell-times array the aggregate is NaN (`0/0`) and that NaN is written
into the stored profile by the EMA update (final conjunct). -/
theorem c10_division_safety (kd : KeystrokeDynamics) (mm : MouseMovements)
    (ds : DeviceSensors) (p : BiometricProfile) (now : ℤ)
    (hdw : kd.dwellTimes ≠ []) (hfl : kd.flightTimes ≠ [])
    (hv : mm.velocity ≠ []) (ha : mm.acceleration ≠ [])
    (hcp : mm.clickPatterns ≠ [])
    (hacc : ds.accelerometer.length = 3) (hgy : ds.gyroscope.length = 3)
    (hp : FiniteProfile p) :
    (jsAvg kd.dwellTimes).isFin = true ∧
    (jsAvg kd.flightTimes).isFin = true ∧
    (jsAvg mm.velocity).isFin = true ∧
    (jsAvg mm.acceleration).isFin = true ∧
    (jsAvg mm.clickPatterns).isFin = true ∧
    (JSNum.div (JSNum.abs (JSNum.sub (jsAvg kd.dwellTimes)
      p.keystrokeProfile.avgDwellTime)) p.keystrokeProfile.avgDwellTime).isFin = true ∧
    (JSNum.div (JSNum.abs (JSNum.sub (jsAvg kd.flightTimes)
      p.keystrokeProfile.avgFlightTime)) p.keystrokeProfile.avgFlightTime).isFin = true ∧
    (JSNum.div (JSNum.abs (JSNum.sub (JSNum.fin kd.typingSpeed)
      p.keystrokeProfile.preferredTypingSpeed))
      p.keystrokeProfile.preferredTypingSpeed).isFin = true ∧
    (JSNum.div (JSNum.abs (JSNum.sub (jsAvg mm.velocity)
      p.mouseProfile.avgVelocity)) p.mouseProfile.avgVelocity).isFin = true ∧
    (JSNum.div (JSNum.abs (JSNum.sub (jsAvg mm.acceleration)
      p.mouseProfile.avgAcceleration)) p.mouseProfile.avgAcceleration).isFin = true ∧
    (JSNum.div (JSNum.abs (JSNum.sub (jsAvg mm.clickPatterns)
      p.mouseProfile.preferredClickSpeed)) p.mouseProfile.preferredClickSpeed).isFin = true ∧
    (∃ q : ℚ, calculateVectorDeviationSq ds.accelerometer
      p.deviceProfile.accelerometerBaseline = JSNum.fin q) ∧
    (∃ q : ℚ, calculateVectorDeviationSq ds.gyroscope
      p.deviceProfile.gyroscopeBaseline = JSNum.fin q) ∧
    (JSNum.div (JSNum.abs (JSNum.sub (JSNum.fin ds.orientation)
      p.deviceProfile.orientationPreference)) (JSNum.fin 360)).isFin = true ∧
    (updateUserProfile kd mm ds now p).keystrokeProfile.avgDwellTime.isFin = true ∧
    (updateUserProfile kd mm ds now p).keystrokeProfile.avgFlightTime.isFin = true ∧
    (updateUserProfile kd mm ds now p).keystrokeProfile.preferredTypingSpeed.isFin = true ∧
    (updateUserProfile kd mm ds now p).mouseProfile.avgVelocity.isFin = true ∧
    (updateUserProfile kd mm ds now p).mouseProfile.avgAcceleration.isFin = true ∧
    (∀ x ∈ (updateUserProfile kd mm ds now p).deviceProfile.accelerometerBaseline,
      x.isFin = true) ∧
    (∀ x ∈ (updateUserProfile kd mm ds now p).deviceProfile.gyroscopeBaseline,
      x.isFin = true) ∧
    (updateUserProfile kd mm ds now p).confidence.isFin = true ∧
    jsAvg c10KdEmpty.dwellTimes = JSNum.nan ∧
    (updateUserProfile c10KdEmpty fixMm fixDs 0 fixProfile).keystrokeProfile.avgDwellTime
      = JSNum.nan := by
  obtain ⟨⟨qdw, hqdw, hqdw0⟩, ⟨qfl, hqfl, hqfl0⟩, ⟨qts, hqts, hqts0⟩,
    ⟨qvel, hqvel, hqvel0⟩, ⟨qac, hqac, hqac0⟩, ⟨qcl, hqcl, hqcl0⟩,
    habl, habf, hgbl, hgbf, hor, hcf⟩ := hp
  obtain ⟨qor, hqor⟩ : ∃ q, p.deviceProfile.orientationPreference = JSNum.fin q := by
    cases hx : p.deviceProfile.orientationPreference <;> simp_all [JSNum.isFin]
  obtain ⟨qc, hqc⟩ : ∃ q, p.confidence = JSNum.fin q := by
    cases hx : p.confidence <;> simp_all [JSNum.isFin]
  refine ⟨?_, ?_, ?_, ?_, ?_, ?_, ?_, ?_, ?_, ?_, ?_, ?_, ?_, ?_, ?_, ?_, ?_, ?_,
    ?_, ?_, ?_, ?_, ?_, ?_⟩
  · rw [jsAvg_fin _ hdw]; rfl
  · rw [jsAvg_fin _ hfl]; rfl
  · rw [jsAvg_fin _ hv]; rfl
  · rw [jsAvg_fin _ ha]; rfl
  · rw [jsAvg_fin _ hcp]; rfl
  · rw [jsAvg_fin _ hdw, hqdw, relDeviation_fin _ _ hqdw0]; rfl
  · rw [jsAvg_fin _ hfl, hqfl, relDeviation_fin _ _ hqfl0]; rfl
  · rw [hqts, relDeviation_fin _ _ hqts0]; rfl
  · rw [jsAvg_fin _ hv, hqvel, relDeviation_fin _ _ hqvel0]; rfl
  · rw [jsAvg_fin _ ha, hqac, relDeviation_fin _ _ hqac0]; rfl
  · rw [jsAvg_fin _ hcp, hqcl, relDeviation_fin _ _ hqcl0]; rfl
  · exact calculateVectorDeviationSq_fin _ _ hacc habl habf
  · exact calculateVectorDeviationSq_fin _ _ hgy hgbl hgbf
  · rw [hqor]
    norm_num [JSNum.sub, JSNum.add, JSNum.neg, JSNum.abs, JSNum.div, JSNum.isFin]
  · simp only [updateUserProfile]
    rw [jsAvg_fin _ hdw, hqdw, emaBlend_fin]; rfl
  · simp only [updateUserProfile]
    rw [jsAvg_fin _ hfl, hqfl, emaBlend_fin]; rfl
  · simp only [updateUserProfile]
    rw [hqts, emaBlend_fin]; rfl
  · simp only [updateUserProfile]
    rw [jsAvg_fin _ hv, hqvel, emaBlend_fin]; rfl
  · simp only [updateUserProfile]
    rw [jsAvg_fin _ ha, hqac, emaBlend_fin]; rfl
  · simp only [updateUserProfile]
    exact emaVec3_fin _ _ habl hacc habf
  · simp only [updateUserProfile]
    exact emaVec3_fin _ _ hgbl hgy hgbf
  · simp only [updateUserProfile]
    rw [hqc]
    exact jsMin_fin _ _
  · rfl
  · norm_num [updateUserProfile, c10KdEmpty, fixProfile, fixKeystrokeProfile,
      jsAvg, JSNum.div, emaBlend, JSNum.mul, JSNum.add]

/-- C10, witness: `c10_division_safety` applied at the fixture sample and
profile (two projected conclusions shown). -/
theorem c10_witness :
    (jsAvg fixKd.dwellTimes).isFin = true ∧
    (updateUserProfile fixKd fixMm fixDs 0 fixProfile).keystrokeProfile.avgDwellTime.isFin
      = true := by
  have h := c10_division_safety fixKd fixMm fixDs fixProfile 0
    (by simp [fixKd]) (by simp [fixKd]) (by simp [fixMm]) (by simp [fixMm])
    (by simp [fixMm]) (by simp [fixDs]) (by simp [fixDs])
    (by
      refine ⟨⟨100, rfl, by norm_num⟩, ⟨70, rfl, by norm_num⟩, ⟨50, rfl, by norm_num⟩,
        ⟨400, rfl, by norm_num⟩, ⟨200, rfl, by norm_num⟩, ⟨250, rfl, by norm_num⟩,
        rfl, ?_, rfl, ?_, rfl, rfl⟩ <;>
      simp [fixProfile, fixDeviceProfile, JSNum.isFin])
  exact ⟨h.1, h.2.2.2.2.2.2.2.2.2.2.2.2.2.2.1⟩

/-- C10, counterexample.  The non-emptiness of the five listed arrays is
NOT sufficient: `updateUserProfile` indexes the accelerometer and
gyroscope arrays at the fixed positions 0..2, so a non-empty length-1
accelerometer array still writes NaN (`0.9 * baseline + 0.1 * undefined`)
into component 1 of the stored baseline, even though every array the
claim lists is non-empty. -/
theorem c10_counterexample :
    fixKd.dwellTimes ≠ [] ∧ fixKd.flightTimes ≠ [] ∧ fixMm.velocity ≠ [] ∧
    fixMm.acceleration ≠ [] ∧ fixMm.clickPatterns ≠ [] ∧
    c10DsShort.accelerometer ≠ [] ∧
    (updateUserProfile fixKd fixMm c10DsShort 0
      fixProfile).deviceProfile.accelerometerBaseline.get? 1 = some JSNum.nan := by
  refine ⟨by simp [fixKd], by simp [fixKd], by simp [fixMm], by simp [fixMm],
    by simp [fixMm], by simp [c10DsShort], ?_⟩
  norm_num [updateUserProfile, c10DsShort, fixProfile, fixDeviceProfile, emaVec3,
    emaBlend, emaAlpha, JSNum.getElem?, JSNum.ofOpt, JSNum.mul, JSNum.add,
    List.range_succ]

theorem submitFeedback_invalid_eq (fb : FeedbackData) (now : ℤ) (s : FSState)
    (hv : validFeedback fb = false) :
    submitFeedback fb now s =
      (Except.error "Invalid feedback data: missing required fields", s) := by
  unfold submitFeedback
  rw [hv]
  simp

theorem submitFeedback_valid_eq (fb : FeedbackData) (now : ℤ) (s : FSState)
    (hv : validFeedback fb = true) :
    submitFeedback fb now s =
      (Except.ok (),
       if shouldTriggerImmediateUpdate fb now (submitCore fb s) then
         queueModelUpdate [fb] UpdateType.incremental Priority.high now
           (submitCore fb s)
       else submitCore fb s) := by
  unfold submitFeedback submitCore
  rw [hv]
  simp
  split_ifs <;> rfl

theorem queueModelUpdate_fields (batch : List FeedbackData) (ut : UpdateType)
    (pr : Priority) (now : ℤ) (s : FSState) :
    (queueModelUpdate batch ut pr now s).feedbackHistory = s.feedbackHistory ∧
    (queueModelUpdate batch ut pr now s).pendingReviews = s.pendingReviews ∧
    (queueModelUpdate batch ut pr now s).reviewerWorkload = s.reviewerWorkload ∧
    (queueModelUpdate batch ut pr now s).modelPerformance = s.modelPerformance :=
  ⟨rfl, rfl, rfl, rfl⟩

/-- C3: `submitFeedback` fails with the invalid-input error exactly when
transactionId, actualLabel or reviewerId is absent, and then leaves the
whole state (history, pending reviews, reviewer workloads, update queue)
unchanged; on a valid record it stores the record under its transaction id
(overwriting any prior one), removes the id from pending review, and
increments that reviewer's workload counter by exactly 1, leaving other
reviewers' counters unchanged. -/
theorem c3_submit_feedback (fb : FeedbackData) (now : ℤ) (s : FSState) :
    (validFeedback fb = false ↔
      (fb.transactionId = "" ∨ fb.actualLabel = none ∨ fb.reviewerId = "")) ∧
    (validFeedback fb = false →
      (submitFeedback fb now s).1 =
        Except.error "Invalid feedback data: missing required fields" ∧
      (submitFeedback fb now s).2 = s) ∧
    (validFeedback fb = true →
      (submitFeedback fb now s).1 = Except.ok () ∧
      mapGet? (submitFeedback fb now s).2.feedbackHistory fb.transactionId = some fb ∧
      mapGet? (submitFeedback fb now s).2.pendingReviews fb.transactionId = none ∧
      (mapGet? (submitFeedback fb now s).2.reviewerWorkload fb.reviewerId).getD 0 =
        (mapGet? s.reviewerWorkload fb.reviewerId).getD 0 + 1 ∧
      (∀ r : String, r ≠ fb.reviewerId →
        mapGet? (submitFeedback fb now s).2.reviewerWorkload r =
          mapGet? s.reviewerWorkload r)) := by
  refine ⟨?_, ?_, ?_⟩
  · unfold validFeedback
    rcases fb.actualLabel with _ | l <;> simp [Option.isSome] <;> tauto
  · intro hv
    rw [submitFeedback_invalid_eq fb now s hv]
    exact ⟨rfl, rfl⟩
  · intro hv
    rw [submitFeedback_valid_eq fb now s hv]
    have hfields : ((if shouldTriggerImmediateUpdate fb now (submitCore fb s) then
        queueModelUpdate [fb] UpdateType.incremental Priority.high now
          (submitCore fb s)
      else submitCore fb s)).feedbackHistory = (submitCore fb s).feedbackHistory ∧
      ((if shouldTriggerImmediateUpdate fb now (submitCore fb s) then
        queueModelUpdate [fb] UpdateType.incremental Priority.high now
          (submitCore fb s)
      else submitCore fb s)).pendingReviews = (submitCore fb s).pendingReviews ∧
      ((if shouldTriggerImmediateUpdate fb now (submitCore fb s) then
        queueModelUpdate [fb] UpdateType.incremental Priority.high now
          (submitCore fb s)
      else submitCore fb s)).reviewerWorkload = (submitCore fb s).reviewerWorkload := by
      split_ifs <;> exact ⟨rfl, rfl, rfl⟩
    refine ⟨rfl, ?_, ?_, ?_, ?_⟩
    · rw [hfields.1]
      simp only [submitCore]
      exact mapGet?_set_self _ _ _
    · rw [hfields.2.1]
      simp only [submitCore]
      exact mapGet?_delete_self _ _
    · rw [hfields.2.2]
      simp only [submitCore]
      rw [mapGet?_set_self]
      rfl
    · intro r hr
      rw [hfields.2.2]
      simp only [submitCore]
      exact mapGet?_set_ne _ _ _ _ hr

/-- C3, witness: `c3_submit_feedback` applied at a record missing its
reviewer id (state unchanged) and at a complete record (workload counter
becomes 1). -/
theorem c3_witness :
    (submitFeedback fixFeedbackNoReviewer 0 initFSState).2 = initFSState ∧
    (mapGet? (submitFeedback fixFeedback 0 initFSState).2.reviewerWorkload
      "analyst_001").getD 0 = 1 := by
  constructor
  · exact ((c3_submit_feedback fixFeedbackNoReviewer 0 initFSState).2.1
      (by simp [validFeedback, fixFeedbackNoReviewer, fixFeedback])).2
  · have h := ((c3_submit_feedback fixFeedback 0 initFSState).2.2
      (by simp [validFeedback, fixFeedback])).2.2.2.1
    have hid : fixFeedback.reviewerId = "analyst_001" := rfl
    rw [hid] at h
    rw [h]
    simp [initFSState, mapGet?]

theorem queueModelUpdate_mem (batch : List FeedbackData) (ut : UpdateType)
    (pr : Priority) (now : ℤ) (s : FSState) :
    ({ feedbackBatch := batch, updateType := ut, priority := pr
       scheduledTime := some (now +
         (if pr = Priority.high then 0
          else if pr = Priority.medium then 300000 else 1800000)) } :
      ModelUpdateRequest) ∈ (queueModelUpdate batch ut pr now s).updateQueue := by
  unfold queueModelUpdate
  exact ((List.mergeSort_perm _ _).mem_iff).mpr (by simp)

theorem submitFeedbackAll_ok (now : ℤ) (fbs : List FeedbackData) (s : FSState)
    (h : ∀ fb ∈ fbs, validFeedback fb = true) :
    (submitFeedbackAll now fbs s).1 = Except.ok () := by
  induction fbs generalizing s with
  | nil => rfl
  | cons fb rest ih =>
      unfold submitFeedbackAll
      rw [submitFeedback_valid_eq fb now s (h fb (by simp))]
      exact ih _ (fun f hf => h f (by simp [hf]))

theorem submitBatchFeedback_ok (fbs : List FeedbackData) (now : ℤ) (s : FSState)
    (h : ∀ fb ∈ fbs, validFeedback fb = true) :
    (submitBatchFeedback fbs now s).1 = Except.ok () := by
  unfold submitBatchFeedback
  rcases hall : submitFeedbackAll now fbs s with ⟨e, st⟩
  rcases e with e | u
  · have := submitFeedbackAll_ok now fbs s h
    rw [hall] at this
    simp at this
  · split_ifs <;> rfl

/-- C9: a single valid feedback record with confidence greater than 0.9
and evidence type bank_confirmation enqueues a high-priority incremental
update scheduled at now + 0, and a successful batch submission of at
least 5 records additionally enqueues a medium-priority incremental
update (over the whole batch) scheduled at now + 300000 ms (5 minutes). -/
theorem c9_update_scheduling :
    (∀ (fb : FeedbackData) (now : ℤ) (s : FSState),
      validFeedback fb = true → fb.confidence > 9/10 →
      fb.evidenceType = EvidenceType.bank_confirmation →
      ({ feedbackBatch := [fb], updateType := UpdateType.incremental
         priority := Priority.high, scheduledTime := some (now + 0) } :
        ModelUpdateRequest) ∈ (submitFeedback fb now s).2.updateQueue) ∧
    (∀ (fbs : List FeedbackData) (now : ℤ) (s : FSState) (r : Unit) (s₁ : FSState),
      submitBatchFeedback fbs now s = (Except.ok r, s₁) → fbs.length ≥ 5 →
      ({ feedbackBatch := fbs, updateType := UpdateType.incremental
         priority := Priority.medium, scheduledTime := some (now + 300000) } :
        ModelUpdateRequest) ∈ s₁.updateQueue) := by
  constructor
  · intro fb now s hv hconf hev
    rw [submitFeedback_valid_eq fb now s hv]
    have htrig : shouldTriggerImmediateUpdate fb now (submitCore fb s) = true := by
      unfold shouldTriggerImmediateUpdate
      simp [hconf, hev]
    rw [if_pos htrig]
    have h := queueModelUpdate_mem [fb] UpdateType.incremental Priority.high now
      (submitCore fb s)
    simpa using h
  · intro fbs now s r s₁ h hlen
    unfold submitBatchFeedback at h
    rcases hall : submitFeedbackAll now fbs s with ⟨e, st⟩
    rcases e with e | u
    · rw [hall] at h
      simp at h
    · rw [hall] at h
      dsimp only at h
      rw [if_pos hlen] at h
      have hs₁ : s₁ = queueModelUpdate fbs UpdateType.incremental Priority.medium
          now st := by
        have := congrArg Prod.snd h
        simpa using this.symm
      rw [hs₁]
      have hm := queueModelUpdate_mem fbs UpdateType.incremental Priority.medium now st
      simpa using hm

/-- C9, witness: `c9_update_scheduling` applied at the fixture record (and
batch) in the initial state. -/
theorem c9_witness :
    ({ feedbackBatch := [fixFeedback], updateType := UpdateType.incremental
       priority := Priority.high, scheduledTime := some 0 } :
      ModelUpdateRequest) ∈ (submitFeedback fixFeedback 0 initFSState).2.updateQueue ∧
    ({ feedbackBatch := fixBatch5, updateType := UpdateType.incremental
       priority := Priority.medium, scheduledTime := some 300000 } :
      ModelUpdateRequest) ∈
      (submitBatchFeedback fixBatch5 0 initFSState).2.updateQueue := by
  constructor
  · have h := c9_update_scheduling.1 fixFeedback 0 initFSState
      (by simp [validFeedback, fixFeedback]) (by norm_num [fixFeedback]) rfl
    simpa using h
  · have hvalid : ∀ fb ∈ fixBatch5, validFeedback fb = true := by
      intro fb hfb
      simp only [fixBatch5, List.mem_cons, List.mem_singleton] at hfb
      rcases hfb with rfl | rfl | rfl | rfl | rfl | h
      all_goals try simp [validFeedback, mkFeedback, fixFeedback]
      cases h
    have h1 : (submitBatchFeedback fixBatch5 0 initFSState).1 = Except.ok () :=
      submitBatchFeedback_ok _ _ _ hvalid
    have h := c9_update_scheduling.2 fixBatch5 0 initFSState ()
      (submitBatchFeedback fixBatch5 0 initFSState).2
      (Prod.ext h1 rfl) (by simp [fixBatch5])
    simpa using h

theorem mapGet?_set_isSome {α : Type} (m : List (String × α)) (k t : String)
    (v : α) (h : (mapGet? m t).isSome = true) :
    (mapGet? (mapSet m k v) t).isSome = true := by
  by_cases ht : t = k
  · subst ht
    rw [mapGet?_set_self]
    rfl
  · rw [mapGet?_set_ne _ _ _ _ ht]
    exact h

theorem mapGet?_delete_none {α : Type} (m : List (String × α)) (k t : String)
    (h : mapGet? m t = none) : mapGet? (mapDelete m k) t = none := by
  by_cases ht : t = k
  · subst ht
    exact mapGet?_delete_self _ _
  · rw [mapGet?_delete_ne _ _ _ ht]
    exact h

theorem submitFeedback_state_cases (fb : FeedbackData) (now : ℤ) (s : FSState) :
    (submitFeedback fb now s).2 = s ∨
    ((submitFeedback fb now s).2.feedbackHistory =
        mapSet s.feedbackHistory fb.transactionId fb ∧
      (submitFeedback fb now s).2.pendingReviews =
        mapDelete s.pendingReviews fb.transactionId) := by
  by_cases hv : validFeedback fb = true
  · right
    rw [submitFeedback_valid_eq fb now s hv]
    constructor <;> dsimp only <;> split_ifs <;> rfl
  · left
    rw [submitFeedback_invalid_eq fb now s (by simpa using hv)]

/-- The transaction id of a record with feedback stays in the history and
out of the pending queue across a `submitFeedback` call. -/
theorem submitFeedback_preserves (fb : FeedbackData) (now : ℤ) (s : FSState)
    (t : String) (hh : (mapGet? s.feedbackHistory t).isSome = true)
    (hp : mapGet? s.pendingReviews t = none) :
    (mapGet? (submitFeedback fb now s).2.feedbackHistory t).isSome = true ∧
    mapGet? (submitFeedback fb now s).2.pendingReviews t = none := by
  rcases submitFeedback_state_cases fb now s with h | ⟨h1, h2⟩
  · rw [h]
    exact ⟨hh, hp⟩
  · rw [h1, h2]
    exact ⟨mapGet?_set_isSome _ _ _ _ hh, mapGet?_delete_none _ _ _ hp⟩

theorem submitFeedbackAll_preserves (now : ℤ) (fbs : List FeedbackData)
    (s : FSState) (t : String)
    (hh : (mapGet? s.feedbackHistory t).isSome = true)
    (hp : mapGet? s.pendingReviews t = none) :
    (mapGet? (submitFeedbackAll now fbs s).2.feedbackHistory t).isSome = true ∧
    mapGet? (submitFeedbackAll now fbs s).2.pendingReviews t = none := by
  induction fbs generalizing s with
  | nil => exact ⟨hh, hp⟩
  | cons fb rest ih =>
      unfold submitFeedbackAll
      rcases hsub : submitFeedback fb now s with ⟨e, st⟩
      have hpres := submitFeedback_preserves fb now s t hh hp
      rw [hsub] at hpres
      rcases e with e | u
      · exact hpres
      · exact ih st hpres.1 hpres.2

theorem submitBatchFeedback_histPending (fbs : List FeedbackData) (now : ℤ)
    (s : FSState) :
    (submitBatchFeedback fbs now s).2.feedbackHistory =
      (submitFeedbackAll now fbs s).2.feedbackHistory ∧
    (submitBatchFeedback fbs now s).2.pendingReviews =
      (submitFeedbackAll now fbs s).2.pendingReviews := by
  unfold submitBatchFeedback
  rcases hall : submitFeedbackAll now fbs s with ⟨e, st⟩
  rcases e with e | u
  · exact ⟨rfl, rfl⟩
  · dsimp only
    split_ifs <;> exact ⟨rfl, rfl⟩

theorem identifyStep_pending (s : FSState)
    (acc : List ActiveLearningQuery × List (String × ActiveLearningQuery))
    (item : FraudDetectionResponse × TransactionData × BiometricData)
    (t : String) (hh : (mapGet? s.feedbackHistory t).isSome = true)
    (hp : mapGet? acc.2 t = none) :
    mapGet? (identifyStep s acc item).2 t = none := by
  unfold identifyStep
  by_cases hskip : (mapGet? s.feedbackHistory item.1.transactionId).isSome = true
  · rw [if_pos hskip]
    exact hp
  · rw [if_neg hskip]
    dsimp only
    split_ifs with hc
    · dsimp only
      have hne : t ≠ item.1.transactionId := by
        intro he
        rw [he] at hh
        exact hskip hh
      rw [mapGet?_set_ne _ _ _ _ hne]
      exact hp
    · exact hp

theorem identifyStep_queries (s : FSState)
    (acc : List ActiveLearningQuery × List (String × ActiveLearningQuery))
    (item : FraudDetectionResponse × TransactionData × BiometricData)
    (hq : ∀ q ∈ acc.1, (mapGet? s.feedbackHistory q.transactionId).isSome = false) :
    ∀ q ∈ (identifyStep s acc item).1,
      (mapGet? s.feedbackHistory q.transactionId).isSome = false := by
  intro q hmem
  unfold identifyStep at hmem
  by_cases hskip : (mapGet? s.feedbackHistory item.1.transactionId).isSome = true
  · rw [if_pos hskip] at hmem
    exact hq q hmem
  · rw [if_neg hskip] at hmem
    dsimp only at hmem
    split_ifs at hmem with hc
    · dsimp only at hmem
      rcases List.mem_append.mp hmem with hold | hnew
      · exact hq q hold
      · have : q.transactionId = item.1.transactionId := by
          rcases List.mem_singleton.mp hnew with rfl
          rfl
        rw [this]
        simpa using hskip
    · exact hq q hmem

theorem identifyGo_aux (s : FSState)
    (items : List (FraudDetectionResponse × TransactionData × BiometricData))
    (t : String) (hh : (mapGet? s.feedbackHistory t).isSome = true) :
    ∀ acc : List ActiveLearningQuery × List (String × ActiveLearningQuery),
      mapGet? acc.2 t = none →
      (∀ q ∈ acc.1, (mapGet? s.feedbackHistory q.transactionId).isSome = false) →
      mapGet? (items.foldl (identifyStep s) acc).2 t = none ∧
      (∀ q ∈ (items.foldl (identifyStep s) acc).1,
        (mapGet? s.feedbackHistory q.transactionId).isSome = false) := by
  induction items with
  | nil => exact fun acc hp hq => ⟨hp, hq⟩
  | cons item rest ih =>
      intro acc hp hq
      simp only [List.foldl_cons]
      exact ih (identifyStep s acc item)
        (identifyStep_pending s acc item t hh hp)
        (identifyStep_queries s acc item hq)

/-- All queries the selection loop emits concern ids without feedback. -/
theorem identifyGo_queries (s : FSState)
    (items : List (FraudDetectionResponse × TransactionData × BiometricData)) :
    ∀ q ∈ (identifyGo s items).1,
      (mapGet? s.feedbackHistory q.transactionId).isSome = false := by
  intro q hmem
  unfold identifyGo at hmem
  induction items generalizing q with
  | nil => simp at hmem
  | cons item rest ih =>
      have := identifyGo_aux s (item :: rest) q.transactionId
      by_cases hh : (mapGet? s.feedbackHistory q.transactionId).isSome = true
      · exfalso
        revert hmem
        have hstep : ∀ (its : List (FraudDetectionResponse × TransactionData ×
            BiometricData)) (acc : List ActiveLearningQuery ×
            List (String × ActiveLearningQuery)),
            (∀ p ∈ acc.1, (mapGet? s.feedbackHistory p.transactionId).isSome = false) →
            ∀ p ∈ (its.foldl (identifyStep s) acc).1,
              (mapGet? s.feedbackHistory p.transactionId).isSome = false := by
          intro its
          induction its with
          | nil => exact fun acc h => h
          | cons i r ihr =>
              intro acc h
              simp only [List.foldl_cons]
              exact ihr _ (identifyStep_queries s acc i h)
        intro hmem
        have := hstep (item :: rest) ([], s.pendingReviews) (by simp) q hmem
        rw [this] at hh
        cases hh
      · simpa using hh

theorem identifyUncertain_output (predictions : List FraudDetectionResponse)
    (transactions : List TransactionData) (biometrics : List BiometricData)
    (s : FSState) :
    (identifyUncertainTransactions predictions transactions biometrics s).1.length
      ≤ 10 ∧
    ∀ q ∈ (identifyUncertainTransactions predictions transactions biometrics s).1,
      (mapGet? s.feedbackHistory q.transactionId).isSome = false := by
  constructor
  · unfold identifyUncertainTransactions
    dsimp only
    rw [List.length_take]
    exact min_le_left _ _
  · intro q hq
    unfold identifyUncertainTransactions at hq
    dsimp only at hq
    have h1 := List.take_subset 10 _ hq
    have h2 := ((List.mergeSort_perm _ _).mem_iff).mp h1
    exact identifyGo_queries s _ q h2

theorem applyFSOp_preserves (op : FSOp) (s : FSState) (t : String)
    (hh : (mapGet? s.feedbackHistory t).isSome = true)
    (hp : mapGet? s.pendingReviews t = none) :
    (mapGet? (applyFSOp op s).feedbackHistory t).isSome = true ∧
    mapGet? (applyFSOp op s).pendingReviews t = none := by
  cases op with
  | submit fb now => exact submitFeedback_preserves fb now s t hh hp
  | submitBatch fbs now =>
      have h := submitBatchFeedback_histPending fbs now s
      have hall := submitFeedbackAll_preserves now fbs s t hh hp
      unfold applyFSOp
      rw [h.1, h.2]
      exact hall
  | identify predictions transactions biometrics =>
      constructor
      · exact hh
      · exact (identifyGo_aux s (predictions.zip (transactions.zip biometrics)) t hh
          ([], s.pendingReviews) hp (by simp)).1
  | tickQueue now => exact ⟨hh, hp⟩
  | tickDrift r => exact ⟨hh, hp⟩

theorem foldl_applyFSOp_preserves (ops : List FSOp) (s : FSState) (t : String)
    (hh : (mapGet? s.feedbackHistory t).isSome = true)
    (hp : mapGet? s.pendingReviews t = none) :
    (mapGet? (ops.foldl (fun st op => applyFSOp op st) s).feedbackHistory t).isSome
      = true ∧
    mapGet? (ops.foldl (fun st op => applyFSOp op st) s).pendingReviews t = none := by
  induction ops generalizing s with
  | nil => exact ⟨hh, hp⟩
  | cons op rest ih =>
      simp only [List.foldl_cons]
      have h := applyFSOp_preserves op s t hh hp
      exact ih _ h.1 h.2

/-- C2: `identifyUncertainTransactions` returns at most 10 queries in
every call; and once a feedback record has been stored for a transaction
id by a valid `submitFeedback`, after ANY further sequence of mutating
operations that id is still absent from the pending-review queue and never
appears in the output of a later `identifyUncertainTransactions` call. -/
theorem c2_identify_uncertain_invariant :
    (∀ (predictions : List FraudDetectionResponse)
       (transactions : List TransactionData) (biometrics : List BiometricData)
       (s : FSState),
      (identifyUncertainTransactions predictions transactions biometrics s).1.length
        ≤ 10) ∧
    (∀ (fb : FeedbackData) (now : ℤ) (s : FSState) (ops : List FSOp),
      validFeedback fb = true →
      (mapGet? (ops.foldl (fun st op => applyFSOp op st)
          (submitFeedback fb now s).2).feedbackHistory fb.transactionId).isSome
        = true ∧
      mapGet? (ops.foldl (fun st op => applyFSOp op st)
          (submitFeedback fb now s).2).pendingReviews fb.transactionId = none ∧
      (∀ (predictions : List FraudDetectionResponse)
         (transactions : List TransactionData) (biometrics : List BiometricData),
        ∀ q ∈ (identifyUncertainTransactions predictions transactions biometrics
            (ops.foldl (fun st op => applyFSOp op st)
              (submitFeedback fb now s).2)).1,
          q.transactionId ≠ fb.transactionId)) := by
  constructor
  · intro predictions transactions biometrics s
    exact (identifyUncertain_output predictions transactions biometrics s).1
  · intro fb now s ops hv
    have hest : (mapGet? (submitFeedback fb now s).2.feedbackHistory
        fb.transactionId).isSome = true ∧
        mapGet? (submitFeedback fb now s).2.pendingReviews fb.transactionId
          = none := by
      rw [submitFeedback_valid_eq fb now s hv]
      have hfields : ∀ st : FSState,
          ((if shouldTriggerImmediateUpdate fb now st then
            queueModelUpdate [fb] UpdateType.incremental Priority.high now st
          else st)).feedbackHistory = st.feedbackHistory ∧
          ((if shouldTriggerImmediateUpdate fb now st then
            queueModelUpdate [fb] UpdateType.incremental Priority.high now st
          else st)).pendingReviews = st.pendingReviews := by
        intro st
        split_ifs <;> exact ⟨rfl, rfl⟩
      dsimp only
      rw [(hfields _).1, (hfields _).2]
      constructor
      · simp only [submitCore]
        rw [mapGet?_set_self]
        rfl
      · simp only [submitCore]
        exact mapGet?_delete_self _ _
    have hfold := foldl_applyFSOp_preserves ops (submitFeedback fb now s).2
      fb.transactionId hest.1 hest.2
    refine ⟨hfold.1, hfold.2, ?_⟩
    intro predictions transactions biometrics q hq he
    have hout := (identifyUncertain_output predictions transactions biometrics
      (ops.foldl (fun st op => applyFSOp op st) (submitFeedback fb now s).2)).2 q hq
    rw [he] at hout
    rw [hfold.1] at hout
    cases hout

/-- C2, witness: `c2_identify_uncertain_invariant` applied after
submitting the fixture feedback in the initial state, followed by a drift
tick: the id neither pends nor reappears, and every call returns at most
10 queries. -/
theorem c2_witness :
    (identifyUncertainTransactions [] [] [] initFSState).1.length ≤ 10 ∧
    mapGet? ([FSOp.tickDrift 0].foldl (fun st op => applyFSOp op st)
      (submitFeedback fixFeedback 0 initFSState).2).pendingReviews
      fixFeedback.transactionId = none := by
  constructor
  · exact c2_identify_uncertain_invariant.1 [] [] [] initFSState
  · exact (c2_identify_uncertain_invariant.2 fixFeedback 0 initFSState
      [FSOp.tickDrift 0] (by simp [validFeedback, fixFeedback])).2.1

theorem processBiometricData_cases (data : BiometricData)
    (fresh : BiometricProfile) (now : ℤ) (s : ProcessorState) :
    (wellFormedBio data = false →
      (processBiometricData data fresh now s).1 = Except.error ()) ∧
    (wellFormedBio data = true →
      ∃ an, (processBiometricData data fresh now s).1 = Except.ok an) := by
  unfold processBiometricData wellFormedBio
  rcases hk : data.keystrokeDynamics with _ | kd <;>
    rcases hm : data.mouseMovements with _ | mm <;>
    rcases hd : data.deviceSensors with _ | ds <;>
    simp

theorem predictFraud_cases (tx : TransactionData) (bio : BiometricData)
    (embeddings : List GNNEmbedding) (clockHour : ℕ) (noise confRand : ℚ) :
    (wellFormedBio bio = false →
      predictFraud tx bio embeddings clockHour noise confRand = Except.error ()) ∧
    (wellFormedBio bio = true →
      ∃ pred, predictFraud tx bio embeddings clockHour noise confRand =
        Except.ok pred) := by
  unfold predictFraud wellFormedBio
  rcases hk : bio.keystrokeDynamics with _ | kd <;>
    rcases hm : bio.mouseMovements with _ | mm <;>
    rcases hd : bio.deviceSensors with _ | ds <;>
    simp

/-- Shape of one batch item: degraded with the right message on the two
failure paths, a normal verdict with no error flag otherwise. -/
theorem batchProcessItem_shape (graphEmbeddings : List GNNEmbedding)
    (fresh : String → BiometricProfile) (clockHour : ℕ) (rand : ScoreRand)
    (now : ℤ) (tx : TransactionData) (bio? : Option BiometricData)
    (s : ProcessorState) :
    (bio? = none →
      (batchProcessItem graphEmbeddings fresh clockHour rand now tx bio? s).1 =
        degradedItem tx.id "Missing biometric data") ∧
    (∀ bio, bio? = some bio → wellFormedBio bio = false →
      (batchProcessItem graphEmbeddings fresh clockHour rand now tx bio? s).1 =
        degradedItem tx.id "Processing failed") ∧
    (∀ bio, bio? = some bio → wellFormedBio bio = true →
      ∃ r, (batchProcessItem graphEmbeddings fresh clockHour rand now tx bio? s).1 = r ∧
        r.error = none ∧ r.transactionId = tx.id ∧ r.explanation.isSome = true ∧
        r.biometricAnomalies.isSome = true ∧ r.confidence.isSome = true) := by
  refine ⟨?_, ?_, ?_⟩
  · intro hnone
    rw [hnone]
    rfl
  · intro bio hsome hwf
    rw [hsome]
    unfold batchProcessItem
    dsimp only
    rw [(processBiometricData_cases bio (fresh bio.userId) now s).1 hwf]
  · intro bio hsome hwf
    rw [hsome]
    unfold batchProcessItem
    dsimp only
    obtain ⟨an, han⟩ := (processBiometricData_cases bio (fresh bio.userId) now s).2 hwf
    obtain ⟨pred, hpred⟩ := (predictFraud_cases tx bio graphEmbeddings clockHour
      rand.noise rand.confRand).2 hwf
    rw [han, hpred]
    exact ⟨_, rfl, rfl, rfl, rfl, rfl, rfl⟩

theorem batchItemsGo_length (graphEmbeddings : List GNNEmbedding)
    (fresh : String → BiometricProfile) (clockHour : ℕ) (rands : ℕ → ScoreRand)
    (now : ℤ) (biometrics : List (Option BiometricData)) :
    ∀ (txs : List TransactionData) (i : ℕ) (s : ProcessorState),
    (batchItemsGo graphEmbeddings fresh clockHour rands now biometrics i txs s).1.length
      = txs.length := by
  intro txs
  induction txs with
  | nil => intro i s; rfl
  | cons tx rest ih =>
      intro i s
      unfold batchItemsGo
      dsimp only
      rw [List.length_cons, ih, List.length_cons]

theorem batchItemsGo_get? (graphEmbeddings : List GNNEmbedding)
    (fresh : String → BiometricProfile) (clockHour : ℕ) (rands : ℕ → ScoreRand)
    (now : ℤ) (biometrics : List (Option BiometricData)) :
    ∀ (txs : List TransactionData) (i j : ℕ) (s : ProcessorState),
      j < txs.length →
      ∃ (tx : TransactionData) (st : ProcessorState),
        txs.get? j = some tx ∧
        (batchItemsGo graphEmbeddings fresh clockHour rands now biometrics i txs
          s).1.get? j = some (batchProcessItem graphEmbeddings fresh clockHour
            (rands (i + j)) now tx ((biometrics.get? (i + j)).join) st).1 := by
  intro txs
  induction txs with
  | nil =>
      intro i j s hj
      simp at hj
  | cons tx rest ih =>
      intro i j s hj
      unfold batchItemsGo
      dsimp only
      rcases j with _ | j
      · exact ⟨tx, s, rfl, by simp⟩
      · obtain ⟨tx', st, h1, h2⟩ := ih (i + 1) j
          (batchProcessItem graphEmbeddings fresh clockHour (rands i) now tx
            ((biometrics.get? i).join) s).2 (by simpa using hj)
        refine ⟨tx', st, by simpa using h1, ?_⟩
        have harith : i + 1 + j = i + (j + 1) := by omega
        rw [harith] at h2
        simpa using h2

theorem batchScorePOST_ok (transactions : List TransactionData)
    (biometrics : List (Option BiometricData))
    (recentTransactions : List TransactionData)
    (graphEmbeddings : List GNNEmbedding) (fresh : String → BiometricProfile)
    (clockHour : ℕ) (rands : ℕ → ScoreRand) (now : ℤ) (s : ProcessorState)
    (hne : transactions ≠ []) :
    batchScorePOST transactions biometrics recentTransactions graphEmbeddings
      fresh clockHour rands now s =
    (Except.ok
      { results := (batchItemsGo graphEmbeddings fresh clockHour rands now
          biometrics 0 transactions s).1
        summary := batchSummaryOf (batchItemsGo graphEmbeddings fresh clockHour
          rands now biometrics 0 transactions s).1 transactions.length },
     (batchItemsGo graphEmbeddings fresh clockHour rands now biometrics 0
       transactions s).2) := by
  unfold batchScorePOST
  rw [if_neg (by simpa using hne)]

/-- C5: in batch scoring, each item whose biometric entry is missing or
whose processing throws internally degrades, alone, to the default result
(fraudProbability 0.5, riskLevel medium, error flag set, with the
corresponding message), every other item is processed normally (a verdict
with no error flag and all verdict fields present), the results array
keeps one entry per transaction in order, and the summary error count is
the number of results carrying the error flag (the degraded items). -/
theorem c5_batch_isolation (transactions : List TransactionData)
    (biometrics : List (Option BiometricData))
    (recentTransactions : List TransactionData)
    (graphEmbeddings : List GNNEmbedding) (fresh : String → BiometricProfile)
    (clockHour : ℕ) (rands : ℕ → ScoreRand) (now : ℤ) (s : ProcessorState)
    (resp : BatchResponse) (s' : ProcessorState)
    (h : batchScorePOST transactions biometrics recentTransactions
      graphEmbeddings fresh clockHour rands now s = (Except.ok resp, s')) :
    resp.results.length = transactions.length ∧
    resp.summary.errors = (resp.results.filter (fun r => r.error.isSome)).length ∧
    (∀ id msg, (degradedItem id msg).fraudProbability = 1/2 ∧
      (degradedItem id msg).riskLevel = RiskLevel.medium ∧
      (degradedItem id msg).error.isSome = true) ∧
    (∀ j, j < transactions.length →
      (itemFails biometrics j = true →
        ∃ tx, transactions.get? j = some tx ∧
          resp.results.get? j = some (degradedItem tx.id
            (if (biometrics.get? j).join = none then "Missing biometric data"
             else "Processing failed"))) ∧
      (itemFails biometrics j = false →
        ∃ r, resp.results.get? j = some r ∧ r.error = none ∧
          r.explanation.isSome = true ∧ r.biometricAnomalies.isSome = true ∧
          r.confidence.isSome = true)) := by
  have hne : transactions ≠ [] := by
    intro he
    rw [he] at h
    unfold batchScorePOST at h
    simp at h
  rw [batchScorePOST_ok transactions biometrics recentTransactions graphEmbeddings
    fresh clockHour rands now s hne] at h
  simp only [Prod.mk.injEq, Except.ok.injEq] at h
  obtain ⟨hresp, _⟩ := h
  rw [← hresp]
  refine ⟨batchItemsGo_length _ _ _ _ _ _ _ _ _, rfl,
    fun id msg => ⟨rfl, rfl, rfl⟩, ?_⟩
  intro j hj
  obtain ⟨tx, st, htx, hres⟩ := batchItemsGo_get? graphEmbeddings fresh clockHour
    rands now biometrics transactions 0 j s hj
  rw [Nat.zero_add] at hres
  have hshape := batchProcessItem_shape graphEmbeddings fresh clockHour (rands j)
    now tx ((biometrics.get? j).join) st
  constructor
  · intro hfail
    refine ⟨tx, htx, ?_⟩
    rcases hjoin : (biometrics.get? j).join with _ | bio
    · rw [if_pos rfl, hres, hshape.1 hjoin]
    · rw [if_neg (by simp [hjoin])]
      have hwf : wellFormedBio bio = false := by
        unfold itemFails at hfail
        rw [hjoin] at hfail
        simpa using hfail
      rw [hres, hshape.2.1 bio hjoin hwf]
  · intro hok
    rcases hjoin : (biometrics.get? j).join with _ | bio
    · exfalso
      unfold itemFails at hok
      rw [hjoin] at hok
      simp at hok
    · have hwf : wellFormedBio bio = true := by
        unfold itemFails at hok
        rw [hjoin] at hok
        simpa using hok
      obtain ⟨r, hr, herr, _, hexp, hban, hcf⟩ := hshape.2.2 bio hjoin hwf
      exact ⟨r, by rw [hres, hr], herr, hexp, hban, hcf⟩

/-- C5, witness: `c5_batch_isolation` applied at a concrete 3-item batch
whose middle item throws: that item degrades, its neighbors do not. -/
theorem c5_witness :
    itemFails c5Bios 1 = true ∧ itemFails c5Bios 0 = false ∧
    (∃ tx, c5Txs.get? 1 = some tx ∧
      (batchScorePOST c5Txs c5Bios [] [] (fun _ => fixProfile) 12
        (fun _ => { noise := 0, confRand := 1/2 }) 0 fixState |>.1) = Except.ok
        { results := (batchItemsGo [] (fun _ => fixProfile) 12
            (fun _ => { noise := 0, confRand := 1/2 }) 0 c5Bios 0 c5Txs fixState).1
          summary := batchSummaryOf (batchItemsGo [] (fun _ => fixProfile) 12
            (fun _ => { noise := 0, confRand := 1/2 }) 0 c5Bios 0 c5Txs
            fixState).1 c5Txs.length } ∧
      (batchItemsGo [] (fun _ => fixProfile) 12
        (fun _ => { noise := 0, confRand := 1/2 }) 0 c5Bios 0 c5Txs
        fixState).1.get? 1 = some (degradedItem tx.id "Processing failed")) := by
  have hok := batchScorePOST_ok c5Txs c5Bios [] [] (fun _ => fixProfile) 12
    (fun _ => { noise := 0, confRand := 1/2 }) 0 fixState (by simp [c5Txs])
  have h := c5_batch_isolation c5Txs c5Bios [] [] (fun _ => fixProfile) 12
    (fun _ => { noise := 0, confRand := 1/2 }) 0 fixState _ _ hok
  have hfail : itemFails c5Bios 1 = true := by
    simp [itemFails, c5Bios, c5BadBio, wellFormedBio, fixBio]
  have hok0 : itemFails c5Bios 0 = false := by
    simp [itemFails, c5Bios, wellFormedBio, fixBio]
  obtain ⟨tx, htx, hres⟩ := (h.2.2.2 1 (by simp [c5Txs])).1 hfail
  refine ⟨hfail, hok0, tx, htx, ?_, ?_⟩
  · rw [hok]
  · have hjoin : (c5Bios.get? 1).join = some c5BadBio := by simp [c5Bios]
    rw [if_neg (by rw [hjoin]; simp)] at hres
    simpa using hres

theorem build_snd_eq (txs : List TransactionData) :
    ∀ acc : List GraphNode × List GraphEdge,
      (txs.foldl buildStep acc).2 = acc.2 ++ txs.flatMap txEdges := by
  induction txs with
  | nil => intro acc; simp
  | cons tx rest ih =>
      intro acc
      simp only [List.foldl_cons, List.flatMap_cons]
      rw [ih]
      simp [buildStep, List.append_assoc]

theorem build_fst_eq (txs : List TransactionData) :
    ∀ acc : List GraphNode × List GraphEdge,
      (txs.foldl buildStep acc).1 =
        txs.foldl (fun ns tx => (txNodes tx).foldl insertNode ns) acc.1 := by
  induction txs with
  | nil => intro acc; rfl
  | cons tx rest ih =>
      intro acc
      simp only [List.foldl_cons]
      rw [ih]
      rfl

theorem mem_insertNode (ns : List GraphNode) (m n : GraphNode)
    (h : n ∈ insertNode ns m) : n ∈ ns ∨ n = m := by
  unfold insertNode at h
  split_ifs at h
  · exact Or.inl h
  · rcases List.mem_append.mp h with h1 | h1
    · exact Or.inl h1
    · exact Or.inr (List.mem_singleton.mp h1)

theorem insertNode_subset (ns : List GraphNode) (m : GraphNode) :
    ns ⊆ insertNode ns m := by
  unfold insertNode
  split_ifs
  · exact fun x h => h
  · exact fun x h => List.mem_append.mpr (Or.inl h)

theorem insertNode_covers (ns : List GraphNode) (m : GraphNode) :
    ∃ k ∈ insertNode ns m, k.id = m.id := by
  unfold insertNode
  split_ifs with h
  · obtain ⟨k, hk, hid⟩ := List.any_eq_true.mp h
    exact ⟨k, hk, by simpa using hid⟩
  · exact ⟨m, List.mem_append.mpr (Or.inr (by simp)), rfl⟩

theorem foldl_insertNode_sound (l : List GraphNode) :
    ∀ (ns : List GraphNode) (n : GraphNode),
      n ∈ l.foldl insertNode ns → n ∈ ns ∨ n ∈ l := by
  induction l with
  | nil => exact fun ns n h => Or.inl h
  | cons m rest ih =>
      intro ns n h
      rcases ih (insertNode ns m) n h with h1 | h1
      · rcases mem_insertNode ns m n h1 with h2 | h2
        · exact Or.inl h2
        · exact Or.inr (by simp [h2])
      · exact Or.inr (by simp [h1])

theorem foldl_insertNode_subset (l : List GraphNode) :
    ∀ ns : List GraphNode, ns ⊆ l.foldl insertNode ns := by
  induction l with
  | nil => exact fun ns x h => h
  | cons m rest ih =>
      exact fun ns x h => ih (insertNode ns m) (insertNode_subset ns m h)

theorem foldl_insertNode_covers (l : List GraphNode) :
    ∀ (ns : List GraphNode) (m : GraphNode), m ∈ l →
      ∃ k ∈ l.foldl insertNode ns, k.id = m.id := by
  induction l with
  | nil => intro ns m h; simp at h
  | cons a rest ih =>
      intro ns m h
      rcases List.mem_cons.mp h with rfl | h1
      · obtain ⟨k, hk, hid⟩ := insertNode_covers ns m
        exact ⟨k, foldl_insertNode_subset rest (insertNode ns m) hk, hid⟩
      · exact ih (insertNode ns a) m h1

theorem buildNodes_sound (txs : List TransactionData) :
    ∀ (acc : List GraphNode) (n : GraphNode),
      n ∈ txs.foldl (fun ns tx => (txNodes tx).foldl insertNode ns) acc →
      n ∈ acc ∨ ∃ tx ∈ txs, n ∈ txNodes tx := by
  induction txs with
  | nil => exact fun acc n h => Or.inl h
  | cons tx rest ih =>
      intro acc n h
      rcases ih _ n h with h1 | ⟨tx', htx', hn⟩
      · rcases foldl_insertNode_sound (txNodes tx) acc n h1 with h2 | h2
        · exact Or.inl h2
        · exact Or.inr ⟨tx, by simp, h2⟩
      · exact Or.inr ⟨tx', by simp [htx'], hn⟩

theorem buildNodes_subset (txs : List TransactionData) :
    ∀ acc : List GraphNode,
      acc ⊆ txs.foldl (fun ns tx => (txNodes tx).foldl insertNode ns) acc := by
  induction txs with
  | nil => exact fun acc x h => h
  | cons tx rest ih =>
      exact fun acc x h => ih _ (foldl_insertNode_subset (txNodes tx) acc h)

theorem buildNodes_covers (txs : List TransactionData) :
    ∀ (acc : List GraphNode) (tx : TransactionData), tx ∈ txs →
      ∀ m ∈ txNodes tx,
      ∃ k ∈ txs.foldl (fun ns tx => (txNodes tx).foldl insertNode ns) acc,
        k.id = m.id := by
  induction txs with
  | nil => intro acc tx h; simp at h
  | cons a rest ih =>
      intro acc tx h m hm
      rcases List.mem_cons.mp h with rfl | h1
      · obtain ⟨k, hk, hid⟩ := foldl_insertNode_covers (txNodes tx) acc m hm
        exact ⟨k, buildNodes_subset rest _ hk, hid⟩
      · exact ih _ tx h1 m hm

/-- Membership characterization of the built node list under the
consistency condition. -/
theorem buildNodes_mem (txs : List TransactionData) (hcons : txConsistent txs)
    (n : GraphNode) :
    n ∈ (buildTransactionGraph txs).1 ↔ ∃ tx ∈ txs, n ∈ txNodes tx := by
  unfold buildTransactionGraph
  rw [build_fst_eq]
  constructor
  · intro h
    rcases buildNodes_sound txs [] n h with h1 | h1
    · simp at h1
    · exact h1
  · rintro ⟨tx, htx, hn⟩
    obtain ⟨k, hk, hid⟩ := buildNodes_covers txs [] tx htx n hn
    rcases buildNodes_sound txs [] k hk with h1 | ⟨tx', htx', hk'⟩
    · simp at h1
    · have : k = n := hcons tx' htx' tx htx k hk' n hn hid
      rw [← this]
      exact hk

/-- C7, amended: under any permutation of the input list, the edge SET of
`GraphBuilder.buildTransactionGraph` is always the same; the node SET is
the same provided the inputs are attribute-consistent (transactions that
share a node id induce the same node).  Without that proviso the node set
can differ, because node properties are taken from the FIRST transaction
that mentions an id (see the counterexample). -/
theorem c7_graph_permutation (txs₁ txs₂ : List TransactionData)
    (hperm : txs₁.Perm txs₂) :
    (∀ e : GraphEdge,
      e ∈ (buildTransactionGraph txs₁).2 ↔ e ∈ (buildTransactionGraph txs₂).2) ∧
    (txConsistent txs₁ →
      ∀ n : GraphNode,
        n ∈ (buildTransactionGraph txs₁).1 ↔ n ∈ (buildTransactionGraph txs₂).1) := by
  constructor
  · intro e
    unfold buildTransactionGraph
    rw [build_snd_eq, build_snd_eq]
    simp only [List.nil_append, List.mem_flatMap]
    constructor
    · rintro ⟨tx, htx, he⟩
      exact ⟨tx, hperm.mem_iff.mp htx, he⟩
    · rintro ⟨tx, htx, he⟩
      exact ⟨tx, hperm.mem_iff.mpr htx, he⟩
  · intro hcons n
    have hcons₂ : txConsistent txs₂ := by
      intro tx htx tx' htx' m hm m' hm' hid
      exact hcons tx (hperm.mem_iff.mpr htx) tx' (hperm.mem_iff.mpr htx') m hm
        m' hm' hid
    rw [buildNodes_mem txs₁ hcons n, buildNodes_mem txs₂ hcons₂ n]
    constructor
    · rintro ⟨tx, htx, hn⟩
      exact ⟨tx, hperm.mem_iff.mp htx, hn⟩
    · rintro ⟨tx, htx, hn⟩
      exact ⟨tx, hperm.mem_iff.mpr htx, hn⟩

/-- C7, counterexample.  Node properties are taken from the first
transaction that mentions an id, so reordering two transactions that
carry the same merchant id with different attributes changes the node
SET: the Alpha merchant node is in the graph built from [A, B] but not in
the graph built from the permuted [B, A]. -/
theorem c7_counterexample :
    List.Perm [c7TxA, c7TxB] [c7TxB, c7TxA] ∧
    merchantNodeOf c7TxA ∈ (buildTransactionGraph [c7TxA, c7TxB]).1 ∧
    merchantNodeOf c7TxA ∉ (buildTransactionGraph [c7TxB, c7TxA]).1 := by
  refine ⟨List.Perm.swap _ _ _, ?_, ?_⟩
  · simp [buildTransactionGraph, buildStep, insertNode, txNodes, userNodeOf,
      merchantNodeOf, deviceNodeOf, locationNodeOf, locationIdOf, c7TxA, c7TxB,
      fixTxRetail]
  · simp [buildTransactionGraph, buildStep, insertNode, txNodes, userNodeOf,
      merchantNodeOf, deviceNodeOf, locationNodeOf, locationIdOf, c7TxA, c7TxB,
      fixTxRetail]

/-- C7, witness: `c7_graph_permutation` applied at a concrete swapped
pair of attribute-consistent transactions: the first transacted-with edge
of one order is in the edge list of the other order, and the merchant
node is in both node lists. -/
theorem c7_witness :
    ({ source := "user_fix", target := "merch_atm", type := "transacted_with"
       weight := 6000, timestamp := 1700000000000 } : GraphEdge) ∈
      (buildTransactionGraph [fixTx6000, fixTx6000]).2 ∧
    merchantNodeOf fixTx6000 ∈ (buildTransactionGraph [fixTx6000, fixTx6000]).1 := by
  have hcons : txConsistent [fixTx6000, fixTx6000] := by
    intro tx htx tx' htx' m hm m' hm' hid
    have h1 : tx = fixTx6000 := by
      rcases List.mem_cons.mp htx with h | h
      · exact h
      · simpa using h
    have h2 : tx' = fixTx6000 := by
      rcases List.mem_cons.mp htx' with h | h
      · exact h
      · simpa using h
    subst h1
    subst h2
    simp only [txNodes, userNodeOf, merchantNodeOf, deviceNodeOf, locationNodeOf,
      locationIdOf, fixTx6000, List.mem_cons, List.mem_singleton,
      List.not_mem_nil, or_false] at hm hm'
    rcases hm with rfl | rfl | rfl | rfl <;>
      rcases hm' with rfl | rfl | rfl | rfl <;>
      first
        | rfl
        | (exfalso; simp at hid)
  have h := c7_graph_permutation [fixTx6000, fixTx6000] [fixTx6000, fixTx6000]
    (List.Perm.refl _)
  constructor
  · apply (h.1 _).mpr
    unfold buildTransactionGraph
    rw [build_snd_eq]
    simp [txEdges, fixTx6000]
  · apply (h.2 hcons _).mpr
    rw [buildNodes_mem _ hcons]
    exact ⟨fixTx6000, by simp, by simp [txNodes]⟩
